import Mathlib

/-!
Verification development for the observation-catalog module of dfm_tools
(file dfm_tools/observations.py). The Python module is shallowly embedded:
pandas/geopandas tables become lists of records, floating point numbers
become rationals, xarray datasets become explicit record structures,
raising an exception becomes returning an error value, and provider HTTP
payloads become parameters of the embedded functions. Each embedded
definition follows the body of the Python function whose name it carries.
-/

namespace DfmObs

/-! ## Generic list helpers used by several embeddings -/

/-- Keep the first occurrence of every key, dropping later duplicates.
Models pandas `index.duplicated()` removal and xarray
`drop_duplicates(keep=first)`, both of which keep first occurrences. -/
def dedupKeepFirst {α β : Type} [DecidableEq β] (key : α → β) : List α → List α
  | [] => []
  | a :: rest => a :: dedupKeepFirst key (rest.filter (fun b => decide (key b ≠ key a)))
termination_by l => l.length
decreasing_by
  simp only [List.length_cons]
  exact Nat.lt_succ_of_le (List.length_filter_le _ _)

/-- Unique values in first-occurrence order, as pandas `Series.unique`. -/
def uniqueFirst {α : Type} [DecidableEq α] (l : List α) : List α :=
  dedupKeepFirst id l

/-! ## C8: `_lon_360_to_180` inside `_uhslc_get_json` -/

/-- Python float modulo idealized over the rationals: the result takes the
sign of the divisor, so for a positive divisor it lies in `[0, m)`. -/
def pymod (a m : ℚ) : ℚ := a - m * ⌊a / m⌋

/-- Python `round(x, 10)` idealized over the rationals: round `x` to ten
decimal places. Mathlib `round` resolves exact ties upward while Python
resolves them to the even digit; every concrete value appearing below is
not a tie, where the two conventions agree. -/
def round10 (x : ℚ) : ℚ := (round (x * 10 ^ 10) : ℤ) / 10 ^ 10

/-- `_lon_360_to_180` from `_uhslc_get_json`:
`round((lon + 180) % 360 - 180, 10)`. -/
def _lon_360_to_180 (lon : ℚ) : ℚ := round10 (pymod (lon + 180) 360 - 180)

/-- The geometry shift performed at the end of `_uhslc_get_json`: every
point of the UHSLC geojson catalog has its longitude mapped by
`_lon_360_to_180`, the latitude is kept. -/
def _uhslc_get_json_lonshift (pts : List (ℚ × ℚ)) : List (ℚ × ℚ) :=
  pts.map (fun p => (_lon_360_to_180 p.1, p.2))

theorem pymod_nonneg {m : ℚ} (a : ℚ) (hm : 0 < m) : 0 ≤ pymod a m := by
  have h := Int.floor_le (a / m)
  have h2 : m * (⌊a / m⌋ : ℚ) ≤ m * (a / m) := by
    exact mul_le_mul_of_nonneg_left h (le_of_lt hm)
  rw [mul_div_cancel₀ a (ne_of_gt hm)] at h2
  simpa [pymod] using h2

theorem pymod_lt {m : ℚ} (a : ℚ) (hm : 0 < m) : pymod a m < m := by
  have h := Int.lt_floor_add_one (a / m)
  have h2 : m * (a / m) < m * ((⌊a / m⌋ : ℚ) + 1) := by
    exact mul_lt_mul_of_pos_left h hm
  rw [mul_div_cancel₀ a (ne_of_gt hm), mul_add, mul_one] at h2
  have : a - m * (⌊a / m⌋ : ℚ) < m := by linarith
  simpa [pymod] using this

theorem round10_abs_sub (x : ℚ) : |round10 x - x| ≤ 1 / 20000000000 := by
  have h := abs_sub_round (x * 10 ^ 10)
  have h10 : (0:ℚ) < 10 ^ 10 := by norm_num
  have key : round10 x - x = ((round (x * 10 ^ 10) : ℚ) - x * 10 ^ 10) / 10 ^ 10 := by
    rw [round10]
    field_simp
    ring
  rw [key, abs_div, abs_of_pos h10, div_le_iff₀ h10, abs_sub_comm]
  calc |x * 10 ^ 10 - (round (x * 10 ^ 10) : ℚ)| ≤ 1 / 2 := h
    _ ≤ 1 / 20000000000 * 10 ^ 10 := by norm_num

theorem round10_mono {x y : ℚ} (h : x ≤ y) : round10 x ≤ round10 y := by
  unfold round10
  have hr : round (x * 10 ^ 10) ≤ round (y * 10 ^ 10) := by
    rw [round_eq, round_eq]
    apply Int.floor_le_floor
    have h10 : (0:ℚ) ≤ 10 ^ 10 := by norm_num
    have := mul_le_mul_of_nonneg_right h h10
    linarith
  gcongr

theorem round10_intCast (n : ℤ) : round10 ((n : ℚ)) = (n : ℚ) := by
  unfold round10
  have : (n : ℚ) * 10 ^ 10 = ((n * 10 ^ 10 : ℤ) : ℚ) := by push_cast; ring
  rw [this, round_intCast]
  push_cast
  exact mul_div_cancel_right₀ _ (by norm_num)

theorem _lon_360_to_180_bounds (L : ℚ) :
    -180 ≤ _lon_360_to_180 L ∧ _lon_360_to_180 L ≤ 180 := by
  have h1 : 0 ≤ pymod (L + 180) 360 := pymod_nonneg (L + 180) (by norm_num)
  have h2 : pymod (L + 180) 360 < 360 := pymod_lt (L + 180) (by norm_num)
  have hlo : round10 (((-180 : ℤ) : ℚ)) ≤ _lon_360_to_180 L := by
    apply round10_mono
    push_cast
    linarith
  have hhi : _lon_360_to_180 L ≤ round10 (((180 : ℤ) : ℚ)) := by
    apply round10_mono
    push_cast
    linarith
  rw [round10_intCast] at hlo hhi
  push_cast at hlo hhi
  exact ⟨hlo, hhi⟩

/-- Claim C8 (corrected): because `_lon_360_to_180` rounds its result to ten
decimal places, the returned longitude is `round(((L+180) mod 360) - 180, 10)`:
it lies in the closed interval `[-180, 180]` (the right endpoint is
attainable) and is within `5e-11` of a value congruent to `L` modulo `360`;
consequently every point geometry produced by the `_uhslc_get_json` longitude
shift has longitude in `[-180, 180]`. -/
theorem C8_lon_shift (L : ℚ) (pts : List (ℚ × ℚ)) :
    (-180 ≤ _lon_360_to_180 L ∧ _lon_360_to_180 L ≤ 180) ∧
    (∃ k : ℤ, |_lon_360_to_180 L - (L - 360 * k)| ≤ 1 / 20000000000) ∧
    (∀ p ∈ _uhslc_get_json_lonshift pts, -180 ≤ p.1 ∧ p.1 ≤ 180) := by
  refine ⟨_lon_360_to_180_bounds L, ⟨⌊(L + 180) / 360⌋, ?_⟩, ?_⟩
  · have hv : pymod (L + 180) 360 - 180 = L - 360 * (⌊(L + 180) / 360⌋ : ℚ) := by
      rw [pymod]
      ring
    have := round10_abs_sub (pymod (L + 180) 360 - 180)
    rw [hv] at this
    simpa [_lon_360_to_180, hv] using this
  · intro p hp
    rcases List.mem_map.mp hp with ⟨q, _, rfl⟩
    exact _lon_360_to_180_bounds q.1

/-- Claim C8, counterexample to the claim as stated: at longitude
`L = 179.999999999996` the code returns exactly `180`, which is neither
equal to `((L+180) mod 360) - 180 = L` nor inside the half-open
interval `[-180, 180)`. -/
theorem C8_counterexample :
    ¬ (_lon_360_to_180 (179999999999996 / 1000000000000) <
        180 ∧
      _lon_360_to_180 (179999999999996 / 1000000000000) =
        pymod (179999999999996 / 1000000000000 + 180) 360 - 180) := by
  with_unfolding_all decide

theorem C8_lon_shift_witness :
    _lon_360_to_180 400 = 40 ∧
    ((-180 ≤ _lon_360_to_180 400 ∧ _lon_360_to_180 400 ≤ 180) ∧
      (∃ k : ℤ, |_lon_360_to_180 400 - (400 - 360 * k)| ≤ 1 / 20000000000) ∧
      (∀ p ∈ _uhslc_get_json_lonshift [(200, 10)], -180 ≤ p.1 ∧ p.1 ≤ 180)) :=
  ⟨by with_unfolding_all decide, C8_lon_shift 400 [(200, 10)]⟩

/-! ## C9: `_remove_accents` -/

/-- Models `nfkd_form.encode("ASCII", "ignore")`: characters outside the
ASCII range (code point at least 128) are dropped. -/
def asciiIgnore (l : List Char) : List Char := l.filter (fun c => decide (c.toNat < 128))

/-- Models `input_str.replace` of the single character `ø` by `o`. -/
def replaceOslash (l : List Char) : List Char := l.map (fun c => if c = 'ø' then 'o' else c)

/-- `_remove_accents` from observations.py. CPython performs the NFKD
normalization with the unicodedata table, which is not part of this
repository, so the normalization map is a parameter; the warning the code
logs when characters are dropped has no effect on the returned value and is
not modelled. -/
def _remove_accents (nfkd : List Char → List Char) (s : String) : String :=
  String.mk (asciiIgnore (nfkd (replaceOslash s.data)))

/-- Claim C9: `_remove_accents` returns a string of ASCII characters only
and is idempotent. The hypothesis is the Unicode fact the code relies on:
a string of ASCII characters is its own NFKD normal form. -/
theorem C9_remove_accents (nfkd : List Char → List Char) (s : String)
    (hnfkd : ∀ l : List Char, (∀ c ∈ l, c.toNat < 128) → nfkd l = l) :
    (∀ c ∈ (_remove_accents nfkd s).data, c.toNat < 128) ∧
    _remove_accents nfkd (_remove_accents nfkd s) = _remove_accents nfkd s := by
  have hascii : ∀ (l : List Char), ∀ c ∈ asciiIgnore l, c.toNat < 128 := by
    intro l c hc
    have := List.of_mem_filter hc
    simpa using this
  constructor
  · intro c hc
    exact hascii _ c hc
  · unfold _remove_accents
    set r := asciiIgnore (nfkd (replaceOslash s.data)) with hr
    have hrascii : ∀ c ∈ r, c.toNat < 128 := hascii _
    have h1 : replaceOslash r = r := by
      unfold replaceOslash
      rw [List.map_congr_left, List.map_id]
      intro c hc
      have : c ≠ 'ø' := by
        intro hcon
        have := hrascii c hc
        rw [hcon] at this
        exact absurd this (by decide)
      simp [this]
    have h2 : nfkd r = r := hnfkd r hrascii
    have h3 : asciiIgnore r = r := by
      unfold asciiIgnore
      rw [List.filter_eq_self]
      intro c hc
      simpa using hrascii c hc
    simp [h1, h2, h3]

theorem C9_remove_accents_witness :
    (∀ l : List Char, (∀ c ∈ l, c.toNat < 128) → (id : List Char → List Char) l = l) ∧
    ((∀ c ∈ (_remove_accents id "Zürich").data, c.toNat < 128) ∧
      _remove_accents id (_remove_accents id "Zürich") = _remove_accents id "Zürich") :=
  ⟨fun l _ => rfl, C9_remove_accents id "Zürich" (fun l _ => rfl)⟩

/-! ## SSC catalog rows and group validation (C3, C7, C2) -/

/-- A row of the SSC catalog as produced by `ssc_ssh_read_catalog`: the id
columns psmsl/ioc/ptwc/gloss/uhslc have been converted to lists of strings
(an empty list for NaN) and the point geometry carries the station
coordinates. The sonel columns are never consulted by the functions
verified here and are not modelled. -/
structure SscRow where
  ssc_id : String
  station_name : String
  country : String
  x : ℚ
  y : ℚ
  psmsl : List String
  ioc : List String
  ptwc : List String
  gloss : List String
  uhslc : List String
deriving DecidableEq

/-- Column access `row[groupname]` for the five group columns. -/
def SscRow.group (r : SscRow) : String → List String
  | "psmsl" => r.psmsl
  | "ioc" => r.ioc
  | "ptwc" => r.ptwc
  | "gloss" => r.gloss
  | "uhslc" => r.uhslc
  | _ => []

def list_validgroups : List String := ["psmsl", "ioc", "ptwc", "gloss", "uhslc"]

/-- `_check_ssc_groups_valid` from observations.py: raise ValueError at the
first group name that is not one of `list_validgroups`. The Python function
wraps a single name into a one-element list; callers below pass the list. -/
def _check_ssc_groups_valid (groups : List String) : Except String Unit :=
  match groups.find? (fun g => !(list_validgroups.contains g)) with
  | some g => .error ("groupname should be one of the valid groups, " ++ g ++ " is not valid")
  | none => .ok ()

theorem check_groups_valid_of_all {gs : List String}
    (h : ∀ g ∈ gs, g ∈ list_validgroups) : _check_ssc_groups_valid gs = .ok () := by
  unfold _check_ssc_groups_valid
  have hf : gs.find? (fun g => !(list_validgroups.contains g)) = none := by
    rw [List.find?_eq_none]
    intro g hg
    simpa using h g hg
  rw [hf]

theorem check_groups_error_of_exists {gs : List String}
    (h : ∃ g ∈ gs, g ∉ list_validgroups) :
    ∃ e, _check_ssc_groups_valid gs = .error e := by
  unfold _check_ssc_groups_valid
  cases hf : gs.find? (fun g => !(list_validgroups.contains g)) with
  | some g => exact ⟨_, rfl⟩
  | none =>
    exfalso
    rcases h with ⟨g, hg, hval⟩
    have := List.find?_eq_none.mp hf g hg
    simp at this
    exact hval this

/-- `ssc_sscid_from_otherid` from observations.py. The catalog (read over
HTTP in the Python code) is a parameter; `group_id` is the string the code
obtains with `str(group_id)`. The boolean series sums to the number of
catalog rows whose group column list contains the id, so the sum tests
become emptiness and length tests on the filtered catalog, and
`.index[0]` is the head of the filtered catalog. -/
def ssc_sscid_from_otherid (ssc_catalog : List SscRow)
    (group_id : String) (groupname : String) : Except String String :=
  match _check_ssc_groups_valid [groupname] with
  | .error e => .error e
  | .ok _ =>
    match ssc_catalog.filter (fun r => (r.group groupname).contains group_id) with
    | [] => .error ("sscid not found for id " ++ group_id ++ " in group " ++ groupname)
    | r :: rest =>
      if rest.length > 0 then
        .error ("More than 1 sscid found for id " ++ group_id ++ " in group " ++ groupname)
      else .ok r.ssc_id

/-- `ssc_ssh_subset_groups` from observations.py with the catalog as a
parameter: keep the rows whose requested group columns are not all empty
(the row-wise sum of list lengths is nonzero). -/
def ssc_ssh_subset_groups (groups : List String) (ssc_catalog : List SscRow) :
    Except String (List SscRow) :=
  match _check_ssc_groups_valid groups with
  | .error e => .error e
  | .ok _ =>
    .ok (ssc_catalog.filter
      (fun r => decide ((groups.map (fun g => (r.group g).length)).sum ≠ 0)))

/-- Claim C3: `ssc_sscid_from_otherid` returns the unique SSC identifier
whose group column contains the id, raises ValueError for an invalid group
name, raises when no station matches and raises when more than one station
matches. -/
theorem C3_sscid_from_otherid (ssc_catalog : List SscRow)
    (group_id groupname : String) :
    (groupname ∉ list_validgroups →
      ∃ e, ssc_sscid_from_otherid ssc_catalog group_id groupname = .error e) ∧
    (groupname ∈ list_validgroups →
      (ssc_catalog.filter (fun r => (r.group groupname).contains group_id) = [] →
        ∃ e, ssc_sscid_from_otherid ssc_catalog group_id groupname = .error e) ∧
      ((ssc_catalog.filter (fun r => (r.group groupname).contains group_id)).length > 1 →
        ∃ e, ssc_sscid_from_otherid ssc_catalog group_id groupname = .error e) ∧
      (∀ r : SscRow,
        ssc_catalog.filter (fun r => (r.group groupname).contains group_id) = [r] →
        ssc_sscid_from_otherid ssc_catalog group_id groupname = .ok r.ssc_id ∧
        r ∈ ssc_catalog ∧ group_id ∈ r.group groupname)) := by
  constructor
  · intro hinv
    rcases @check_groups_error_of_exists [groupname]
      ⟨groupname, by simp, hinv⟩ with ⟨e, he⟩
    exact ⟨e, by simp [ssc_sscid_from_otherid, he]⟩
  · intro hval
    have hok : _check_ssc_groups_valid [groupname] = .ok () :=
      check_groups_valid_of_all (by simpa using hval)
    refine ⟨?_, ?_, ?_⟩
    · intro hempty
      refine ⟨"sscid not found for id " ++ group_id ++ " in group " ++ groupname, ?_⟩
      unfold ssc_sscid_from_otherid
      rw [hok, hempty]
    · intro hlen
      cases hfil : ssc_catalog.filter (fun r => (r.group groupname).contains group_id) with
      | nil => rw [hfil] at hlen; simp at hlen
      | cons r rest =>
        rw [hfil] at hlen
        simp only [List.length_cons] at hlen
        have hpos : 0 < rest.length := by omega
        refine ⟨"More than 1 sscid found for id " ++ group_id ++ " in group " ++ groupname, ?_⟩
        unfold ssc_sscid_from_otherid
        rw [hok, hfil]
        simp [hpos]
    · intro r hfil
      have hokr : ssc_sscid_from_otherid ssc_catalog group_id groupname = .ok r.ssc_id := by
        unfold ssc_sscid_from_otherid
        rw [hok, hfil]
        rfl
      refine ⟨hokr, ?_, ?_⟩
      · have : r ∈ ssc_catalog.filter (fun r => (r.group groupname).contains group_id) := by
          rw [hfil]; exact List.mem_singleton_self r
        exact List.mem_of_mem_filter this
      · have : r ∈ ssc_catalog.filter (fun r => (r.group groupname).contains group_id) := by
          rw [hfil]; exact List.mem_singleton_self r
        have := List.of_mem_filter this
        simpa using this

theorem C3_sscid_from_otherid_witness :
    ("uhslc" ∈ list_validgroups) ∧
    ([(⟨"SSC-abc", "Abc", "NLD", 4, 52, [], ["abc1"], [], [], ["347"]⟩ : SscRow),
      (⟨"SSC-def", "Def", "BEL", 3, 51, [], [], [], [], []⟩ : SscRow)].filter
        (fun r => (r.group "uhslc").contains "347") =
      [(⟨"SSC-abc", "Abc", "NLD", 4, 52, [], ["abc1"], [], [], ["347"]⟩ : SscRow)]) ∧
    ssc_sscid_from_otherid
      [(⟨"SSC-abc", "Abc", "NLD", 4, 52, [], ["abc1"], [], [], ["347"]⟩ : SscRow),
        (⟨"SSC-def", "Def", "BEL", 3, 51, [], [], [], [], []⟩ : SscRow)]
      "347" "uhslc" = .ok "SSC-abc" :=
  ⟨by decide, by with_unfolding_all decide,
    (((C3_sscid_from_otherid _ "347" "uhslc").2 (by decide)).2.2
      (⟨"SSC-abc", "Abc", "NLD", 4, 52, [], ["abc1"], [], [], ["347"]⟩ : SscRow)
      (by with_unfolding_all decide)).1⟩

/-- Claim C7: `ssc_ssh_subset_groups` keeps exactly the catalog rows that
carry at least one identifier in at least one requested group column, and
raises ValueError when a requested group name is invalid. -/
theorem C7_subset_groups (groups : List String) (ssc_catalog : List SscRow) :
    ((∃ g ∈ groups, g ∉ list_validgroups) →
      ∃ e, ssc_ssh_subset_groups groups ssc_catalog = .error e) ∧
    ((∀ g ∈ groups, g ∈ list_validgroups) →
      ∃ out, ssc_ssh_subset_groups groups ssc_catalog = .ok out ∧
        ∀ r : SscRow, r ∈ out ↔ r ∈ ssc_catalog ∧ ∃ g ∈ groups, r.group g ≠ []) := by
  constructor
  · intro hex
    rcases check_groups_error_of_exists hex with ⟨e, he⟩
    exact ⟨e, by simp [ssc_ssh_subset_groups, he]⟩
  · intro hall
    have hok := check_groups_valid_of_all hall
    refine ⟨ssc_catalog.filter
      (fun r => decide ((groups.map (fun g => (r.group g).length)).sum ≠ 0)), ?_, ?_⟩
    · unfold ssc_ssh_subset_groups
      rw [hok]
    intro r
    rw [List.mem_filter]
    constructor
    · rintro ⟨hmem, hsum⟩
      refine ⟨hmem, ?_⟩
      simp only [decide_eq_true_eq] at hsum
      by_contra hcon
      push_neg at hcon
      apply hsum
      rw [List.sum_eq_zero]
      intro n hn
      rcases List.mem_map.mp hn with ⟨g, hg, rfl⟩
      simp [hcon g hg]
    · rintro ⟨hmem, g, hg, hne⟩
      refine ⟨hmem, ?_⟩
      simp only [decide_eq_true_eq]
      intro hsum
      have hz : ∀ x ∈ groups.map (fun g => (r.group g).length), x = 0 :=
        List.sum_eq_zero_iff.mp hsum
      have : (r.group g).length = 0 := hz _ (List.mem_map.mpr ⟨g, hg, rfl⟩)
      exact hne (List.length_eq_zero.mp this)

theorem C7_subset_groups_witness :
    (∀ g ∈ ["uhslc"], g ∈ list_validgroups) ∧
    ∃ out, ssc_ssh_subset_groups ["uhslc"]
        [(⟨"SSC-abc", "Abc", "NLD", 4, 52, [], ["abc1"], [], [], ["347"]⟩ : SscRow),
          (⟨"SSC-def", "Def", "BEL", 3, 51, [], [], [], [], []⟩ : SscRow)] = .ok out ∧
      ∀ r : SscRow, r ∈ out ↔
        (r ∈ [(⟨"SSC-abc", "Abc", "NLD", 4, 52, [], ["abc1"], [], [], ["347"]⟩ : SscRow),
          (⟨"SSC-def", "Def", "BEL", 3, 51, [], [], [], [], []⟩ : SscRow)] ∧
          ∃ g ∈ ["uhslc"], r.group g ≠ []) :=
  ⟨by decide, (C7_subset_groups ["uhslc"] _).2 (by decide)⟩

/-! ## C2: `ssc_add_linked_stations` -/

/-- Lowercasing of a linked id, `linked_id.lower()`. -/
def strLower (s : String) : String := String.mk (s.data.map Char.toLower)

/-- Geometry lookup `linked_gpd.loc[linked_id]["geometry"]` in a linked
catalog keyed by station id (the UHSLC index cast to str, the IOC index
lowercased and with duplicate Code/geometry pairs dropped, as the code
prepares them). Returns none when the label is missing (KeyError). -/
def lookup_geom (catalog : List (String × ℚ × ℚ)) (id : String) : Option (ℚ × ℚ) :=
  (catalog.find? (fun p => p.1 == id)).map (fun p => p.2)

/-- Squared Euclidean distance `(x2-x1)**2 + (y2-y1)**2`. The code takes
`** 0.5` of this value; since the square root is monotone and not
computable on ℚ, the development stores squared distances and applies
`Real.sqrt` in the statements about the code. -/
def dist_sq (x1 y1 x2 y2 : ℚ) : ℚ := (x2 - x1) ^ 2 + (y2 - y1) ^ 2

/-- The inner loop `for linked_id in row[linked_name]` of
`ssc_add_linked_stations`: squared distance from the SSC station at
`(x1, y1)` to each linked station, in list order; none as soon as a lookup
raises KeyError. -/
def lookupDists (catalog : List (String × ℚ × ℚ)) (x1 y1 : ℚ) :
    List String → Option (List ℚ)
  | [] => some []
  | i :: rest =>
    match lookup_geom catalog (strLower i) with
    | none => none
    | some p =>
      match lookupDists catalog x1 y1 rest with
      | none => none
      | some ds => some (dist_sq x1 y1 p.1 p.2 :: ds)

/-- The per-row loop body of `ssc_add_linked_stations`: squared distances
to the linked IOC stations and then to the linked UHSLC stations, in the
iteration order of the `linked_dict` of the code. -/
def ssc_station_dists_sq (ioc_catalog uhslc_catalog : List (String × ℚ × ℚ))
    (row : SscRow) : Option (List ℚ) :=
  match lookupDists ioc_catalog row.x row.y row.ioc with
  | none => none
  | some d1 =>
    match lookupDists uhslc_catalog row.x row.y row.uhslc with
    | none => none
    | some d2 => some (d1 ++ d2)

/-- An SSC row after `ssc_add_linked_stations`: the two distance columns
hold squared distances (see `dist_sq`); none models the NaN cell of rows
that got no value. The `dist_dict` bookkeeping column is not modelled. -/
structure SscRowLinked where
  base : SscRow
  dist_min_sq : Option ℚ
  dist_max_sq : Option ℚ
deriving DecidableEq

/-- `ssc_add_linked_stations` from observations.py: for every catalog row
compute the distances to all linked IOC/UHSLC stations and store their
min and max; rows without linked stations keep empty cells. -/
def ssc_add_linked_stations (ioc_catalog uhslc_catalog : List (String × ℚ × ℚ)) :
    List SscRow → Option (List SscRowLinked)
  | [] => some []
  | row :: rest =>
    match ssc_station_dists_sq ioc_catalog uhslc_catalog row with
    | none => none
    | some dists =>
      match ssc_add_linked_stations ioc_catalog uhslc_catalog rest with
      | none => none
      | some outr =>
        some ((if dists.isEmpty then ⟨row, none, none⟩
               else ⟨row, dists.min?, dists.max?⟩) :: outr)

theorem foldl_min_map {α β : Type} [LinearOrder α] [LinearOrder β] {f : α → β}
    (hf : Monotone f) (l : List α) (a : α) :
    (l.map f).foldl min (f a) = f (l.foldl min a) := by
  induction l generalizing a with
  | nil => rfl
  | cons b t ih =>
    simp only [List.map_cons, List.foldl_cons]
    rw [← hf.map_min, ih]

theorem foldl_max_map {α β : Type} [LinearOrder α] [LinearOrder β] {f : α → β}
    (hf : Monotone f) (l : List α) (a : α) :
    (l.map f).foldl max (f a) = f (l.foldl max a) := by
  induction l generalizing a with
  | nil => rfl
  | cons b t ih =>
    simp only [List.map_cons, List.foldl_cons]
    rw [← hf.map_max, ih]

theorem min?_map_mono {α β : Type} [LinearOrder α] [LinearOrder β] {f : α → β}
    (hf : Monotone f) (l : List α) : (l.map f).min? = l.min?.map f := by
  cases l with
  | nil => rfl
  | cons a t =>
    rw [List.map_cons, List.min?_cons', List.min?_cons', Option.map_some']
    exact congrArg some (foldl_min_map hf t a)

theorem max?_map_mono {α β : Type} [LinearOrder α] [LinearOrder β] {f : α → β}
    (hf : Monotone f) (l : List α) : (l.map f).max? = l.max?.map f := by
  cases l with
  | nil => rfl
  | cons a t =>
    rw [List.map_cons, List.max?_cons', List.max?_cons', Option.map_some']
    exact congrArg some (foldl_max_map hf t a)

theorem sqrt_ratCast_mono : Monotone (fun q : ℚ => Real.sqrt (q : ℝ)) := by
  intro a b hab
  exact Real.sqrt_le_sqrt (by exact_mod_cast hab)

theorem min?_mem_rat {l : List ℚ} {m : ℚ} (h : l.min? = some m) : m ∈ l :=
  List.min?_mem (fun a b => min_choice a b) h

theorem max?_ub_rat {l : List ℚ} {M : ℚ} (h : l.max? = some M) : ∀ b ∈ l, b ≤ M := by
  haveI : Std.Antisymm (fun x1 x2 : ℚ => x1 ≤ x2) :=
    ⟨@fun a b hab hba => le_antisymm hab hba⟩
  have := (List.max?_eq_some_iff (fun a : ℚ => le_refl a) (fun a b => max_choice a b)
    (fun _ _ _ => max_le_iff)).mp h
  exact this.2

/-- The per-row outcome of `ssc_add_linked_stations`. -/
theorem ssc_linked_row_props (ioc_catalog uhslc_catalog : List (String × ℚ × ℚ))
    (row : SscRow) (dists : List ℚ)
    (hd : ssc_station_dists_sq ioc_catalog uhslc_catalog row = some dists) :
    ((row.ioc = [] ∧ row.uhslc = []) → dists = []) ∧
    (dists ≠ [] →
      ∃ m M, dists.min? = some m ∧ dists.max? = some M ∧
        Real.sqrt (m : ℝ) ≤ Real.sqrt (M : ℝ) ∧
        (dists.map (fun q : ℚ => Real.sqrt (q : ℝ))).min? = some (Real.sqrt (m : ℝ)) ∧
        (dists.map (fun q : ℚ => Real.sqrt (q : ℝ))).max? = some (Real.sqrt (M : ℝ))) := by
  constructor
  · rintro ⟨hioc, huh⟩
    unfold ssc_station_dists_sq at hd
    rw [hioc, huh] at hd
    simp [lookupDists] at hd
    exact hd
  · intro hne
    cases hmin : dists.min? with
    | none => exact absurd (List.min?_eq_none_iff.mp hmin) hne
    | some m =>
      cases hmax : dists.max? with
      | none =>
        exact absurd (List.max?_eq_none_iff.mp hmax) hne
      | some M =>
        refine ⟨m, M, rfl, rfl, ?_, ?_, ?_⟩
        · exact sqrt_ratCast_mono (max?_ub_rat hmax m (min?_mem_rat hmin))
        · rw [min?_map_mono sqrt_ratCast_mono, hmin, Option.map_some']
        · rw [max?_map_mono sqrt_ratCast_mono, hmax, Option.map_some']

/-- Claim C2: for every SSC station with at least one linked IOC or UHSLC
identifier, `ssc_add_linked_stations` stores as `dist_min`/`dist_max` the
minimum and maximum over the linked stations of the Euclidean distance
`sqrt((x2-x1)^2 + (y2-y1)^2)`, so `dist_min ≤ dist_max`; a station without
linked identifiers receives no values. The columns store squared distances
here, so the code values are their square roots (see `dist_sq`). -/
theorem C2_add_linked_stations (ioc_catalog uhslc_catalog : List (String × ℚ × ℚ))
    (ssc_catalog : List SscRow) (out : List SscRowLinked)
    (h : ssc_add_linked_stations ioc_catalog uhslc_catalog ssc_catalog = some out) :
    List.Forall₂ (fun (row : SscRow) (lrow : SscRowLinked) =>
      lrow.base = row ∧
      ∃ dists, ssc_station_dists_sq ioc_catalog uhslc_catalog row = some dists ∧
        (dists = [] → lrow.dist_min_sq = none ∧ lrow.dist_max_sq = none) ∧
        ((row.ioc = [] ∧ row.uhslc = []) →
          lrow.dist_min_sq = none ∧ lrow.dist_max_sq = none) ∧
        (dists ≠ [] →
          ∃ m M, lrow.dist_min_sq = some m ∧ lrow.dist_max_sq = some M ∧
            Real.sqrt (m : ℝ) ≤ Real.sqrt (M : ℝ) ∧
            (dists.map (fun q : ℚ => Real.sqrt (q : ℝ))).min? =
              some (Real.sqrt (m : ℝ)) ∧
            (dists.map (fun q : ℚ => Real.sqrt (q : ℝ))).max? =
              some (Real.sqrt (M : ℝ))))
      ssc_catalog out := by
  induction ssc_catalog generalizing out with
  | nil =>
    unfold ssc_add_linked_stations at h
    cases h
    exact List.Forall₂.nil
  | cons row rest ih =>
    unfold ssc_add_linked_stations at h
    cases hd : ssc_station_dists_sq ioc_catalog uhslc_catalog row with
    | none => rw [hd] at h; cases h
    | some dists =>
      rw [hd] at h
      cases hrest : ssc_add_linked_stations ioc_catalog uhslc_catalog rest with
      | none => rw [hrest] at h; cases h
      | some outr =>
        rw [hrest] at h
        cases h
        have hprops := ssc_linked_row_props ioc_catalog uhslc_catalog row dists hd
        refine List.Forall₂.cons ?_ (ih outr hrest)
        by_cases hemp : dists.isEmpty
        · have hnil : dists = [] := by simpa [List.isEmpty_iff] using hemp
          rw [if_pos hemp]
          exact ⟨rfl, dists, hd, fun _ => ⟨rfl, rfl⟩, fun _ => ⟨rfl, rfl⟩,
            fun hne => absurd hnil hne⟩
        · have hne : dists ≠ [] := by simpa [List.isEmpty_iff] using hemp
          rw [if_neg hemp]
          refine ⟨rfl, dists, hd, fun hnil => absurd hnil hne, ?_, ?_⟩
          · intro hboth
            exact absurd (hprops.1 hboth) hne
          · intro _
            rcases hprops.2 hne with ⟨m, M, hmin, hmax, hle, hmapmin, hmapmax⟩
            exact ⟨m, M, by simpa using hmin, by simpa using hmax, hle, hmapmin, hmapmax⟩

theorem C2_add_linked_stations_witness :
    (ssc_add_linked_stations [("abc1", 4, 53)] [("347", 6, 52)]
      [(⟨"SSC-abc", "Abc", "NLD", 4, 52, [], ["Abc1"], [], [], ["347"]⟩ : SscRow),
        (⟨"SSC-def", "Def", "BEL", 3, 51, [], [], [], [], []⟩ : SscRow)] =
      some [⟨⟨"SSC-abc", "Abc", "NLD", 4, 52, [], ["Abc1"], [], [], ["347"]⟩, some 1, some 4⟩,
        ⟨⟨"SSC-def", "Def", "BEL", 3, 51, [], [], [], [], []⟩, none, none⟩]) ∧
    List.Forall₂ (fun (row : SscRow) (lrow : SscRowLinked) =>
      lrow.base = row ∧
      ∃ dists, ssc_station_dists_sq [("abc1", 4, 53)] [("347", 6, 52)] row = some dists ∧
        (dists = [] → lrow.dist_min_sq = none ∧ lrow.dist_max_sq = none) ∧
        ((row.ioc = [] ∧ row.uhslc = []) →
          lrow.dist_min_sq = none ∧ lrow.dist_max_sq = none) ∧
        (dists ≠ [] →
          ∃ m M, lrow.dist_min_sq = some m ∧ lrow.dist_max_sq = some M ∧
            Real.sqrt (m : ℝ) ≤ Real.sqrt (M : ℝ) ∧
            (dists.map (fun q : ℚ => Real.sqrt (q : ℝ))).min? =
              some (Real.sqrt (m : ℝ)) ∧
            (dists.map (fun q : ℚ => Real.sqrt (q : ℝ))).max? =
              some (Real.sqrt (M : ℝ))))
      [(⟨"SSC-abc", "Abc", "NLD", 4, 52, [], ["Abc1"], [], [], ["347"]⟩ : SscRow),
        (⟨"SSC-def", "Def", "BEL", 3, 51, [], [], [], [], []⟩ : SscRow)]
      [⟨⟨"SSC-abc", "Abc", "NLD", 4, 52, [], ["Abc1"], [], [], ["347"]⟩, some 1, some 4⟩,
        ⟨⟨"SSC-def", "Def", "BEL", 3, 51, [], [], [], [], []⟩, none, none⟩] :=
  ⟨by with_unfolding_all decide,
    C2_add_linked_stations [("abc1", 4, 53)] [("347", 6, 52)] _ _
      (by with_unfolding_all decide)⟩

/-! ## C5: quality filtering in `cmems_ssh_retrieve_data` and
`gesla3_ssh_retrieve_data` -/

theorem dedupKeepFirst_subset {α β : Type} [DecidableEq β] (key : α → β) :
    ∀ l : List α, ∀ a ∈ dedupKeepFirst key l, a ∈ l
  | [] => by simp [dedupKeepFirst]
  | x :: rest => by
    intro a ha
    rw [dedupKeepFirst] at ha
    rcases List.mem_cons.mp ha with h | h
    · exact h ▸ List.mem_cons_self _ _
    · have := dedupKeepFirst_subset key (rest.filter (fun b => decide (key b ≠ key x))) a h
      exact List.mem_cons_of_mem _ (List.mem_of_mem_filter this)
termination_by l => l.length
decreasing_by
  simp only [List.length_cons]
  exact Nat.lt_succ_of_le (List.length_filter_le _ _)

/-- A record of the CMEMS netcdf file after the DEPTH reduction and the
TIME→time rename: the sea level value and its quality flag at one
timestamp; none models NaN. -/
structure CmemsRecord where
  time : ℤ
  slev : Option ℚ
  slev_qc : Option ℚ
deriving DecidableEq

/-- An output record of `cmems_ssh_retrieve_data`: time and the waterlevel
variable (SLEV renamed; SLEV_QC is dropped from the output). -/
structure WlRecord where
  time : ℤ
  waterlevel : Option ℚ
deriving DecidableEq

/-- `ds.sel(time=slice(time_min, time_max))`: a closed interval with
optional endpoints. -/
def inTimeSlice (time_min time_max : Option ℤ) (t : ℤ) : Bool :=
  (match time_min with | some a => decide (a ≤ t) | none => true) &&
  (match time_max with | some b => decide (t ≤ b) | none => true)

/-- The dataset transformation of `cmems_ssh_retrieve_data` (the
copernicusmarine download and the dropped bookkeeping variables are I/O
and carry no sea level data): keep SLEV only where SLEV_QC == 1, rename
SLEV to waterlevel, drop the flag variables, slice the time range, and
return None when no timestamps remain. -/
def cmems_ssh_retrieve_data (records : List CmemsRecord)
    (time_min time_max : Option ℤ) : Option (List WlRecord) :=
  let masked := records.map (fun r =>
    WlRecord.mk r.time (if r.slev_qc == some 1 then r.slev else none))
  let sliced := masked.filter (fun r => inTimeSlice time_min time_max r.time)
  if sliced.isEmpty then none else some sliced

/-- A row of the GESLA3 data file of one station: timestamp, sea level,
quality flag, use flag; none models NaN. -/
structure GeslaRecord where
  time : ℤ
  sea_level : Option ℚ
  qc_flag : Option ℚ
  use_flag : Option ℚ
deriving DecidableEq

/-- An output record of `gesla3_ssh_retrieve_data` after the rename of
sea_level to waterlevel. -/
structure GeslaOut where
  time : ℤ
  waterlevel : Option ℚ
  qc_flag : Option ℚ
  use_flag : Option ℚ
deriving DecidableEq

/-- `gesla3_ssh_retrieve_data` from observations.py with the zip member
already parsed into records (the zipfile plumbing is I/O): drop duplicate
timestamps keeping the first occurrence, rename sea_level to waterlevel,
slice the time range, return None when nothing remains, then mask every
data variable where qc_flag is not 1 (`ds.where(ds.qc_flag==1)` masks all
data variables, the flag itself included). -/
def gesla3_ssh_retrieve_data (records : List GeslaRecord)
    (time_min time_max : Option ℤ) : Option (List GeslaOut) :=
  let deduped := dedupKeepFirst (fun r => r.time) records
  let renamed := deduped.map (fun r =>
    GeslaOut.mk r.time r.sea_level r.qc_flag r.use_flag)
  let sliced := renamed.filter (fun r => inTimeSlice time_min time_max r.time)
  if sliced.isEmpty then none
  else some (sliced.map (fun r =>
    if r.qc_flag == some 1 then r else ⟨r.time, none, none, none⟩))

/-- Claim C5: retrieved time series are quality filtered. In the CMEMS
output every waterlevel whose SLEV_QC flag was not 1 is NaN, in the GESLA3
output every value whose qc_flag is not 1 is NaN. -/
theorem C5_quality_filter :
    (∀ (records : List CmemsRecord) (time_min time_max : Option ℤ)
      (out : List WlRecord),
      cmems_ssh_retrieve_data records time_min time_max = some out →
      ∀ e ∈ out, ∃ r ∈ records, e.time = r.time ∧
        (r.slev_qc ≠ some 1 → e.waterlevel = none) ∧
        (r.slev_qc = some 1 → e.waterlevel = r.slev)) ∧
    (∀ (records : List GeslaRecord) (time_min time_max : Option ℤ)
      (out : List GeslaOut),
      gesla3_ssh_retrieve_data records time_min time_max = some out →
      ∀ e ∈ out, (e.qc_flag ≠ some 1 → e.waterlevel = none) ∧
        ∃ r ∈ records, e.time = r.time ∧
          (r.qc_flag ≠ some 1 → e.waterlevel = none ∧ e.qc_flag = none) ∧
          (r.qc_flag = some 1 → e.waterlevel = r.sea_level ∧ e.qc_flag = some 1)) := by
  constructor
  · intro records time_min time_max out h e he
    simp only [cmems_ssh_retrieve_data] at h
    split at h
    · cases h
    · cases h
      have hmem := List.mem_of_mem_filter he
      rcases List.mem_map.mp hmem with ⟨r, hr, rfl⟩
      refine ⟨r, hr, rfl, ?_, ?_⟩
      · intro hq
        have : (r.slev_qc == some 1) = false := by
          simpa using hq
        simp [this]
      · intro hq
        have : (r.slev_qc == some 1) = true := by
          simpa using hq
        simp [this]
  · intro records time_min time_max out h e he
    simp only [gesla3_ssh_retrieve_data] at h
    split at h
    · cases h
    · cases h
      rcases List.mem_map.mp he with ⟨s, hs, rfl⟩
      have hsrenamed := List.mem_of_mem_filter hs
      rcases List.mem_map.mp hsrenamed with ⟨d, hd, rfl⟩
      have hdrec : d ∈ records := dedupKeepFirst_subset _ records d hd
      by_cases hq : d.qc_flag = some 1
      · have hb : ((GeslaOut.mk d.time d.sea_level d.qc_flag d.use_flag).qc_flag
            == some 1) = true := by simpa using hq
        refine ⟨?_, d, hdrec, ?_, ?_, ?_⟩ <;> simp [hb, hq]
      · have hb : ((GeslaOut.mk d.time d.sea_level d.qc_flag d.use_flag).qc_flag
            == some 1) = false := by simpa using hq
        refine ⟨?_, d, hdrec, ?_, ?_, ?_⟩ <;> simp [hb, hq]

theorem C5_quality_filter_witness :
    (cmems_ssh_retrieve_data
        [⟨0, some 5, some 1⟩, ⟨1, some 7, some 4⟩] none none =
      some [⟨0, some 5⟩, ⟨1, none⟩]) ∧
    (∀ e ∈ ([⟨0, some 5⟩, ⟨1, none⟩] : List WlRecord),
      ∃ r ∈ ([⟨0, some 5, some 1⟩, ⟨1, some 7, some 4⟩] : List CmemsRecord),
        e.time = r.time ∧
        (r.slev_qc ≠ some 1 → e.waterlevel = none) ∧
        (r.slev_qc = some 1 → e.waterlevel = r.slev)) ∧
    (gesla3_ssh_retrieve_data
        [⟨0, some 2, some 1, some 1⟩, ⟨0, some 3, some 1, some 1⟩,
          ⟨1, some 4, some 3, some 1⟩] none none =
      some [⟨0, some 2, some 1, some 1⟩, ⟨1, none, none, none⟩]) ∧
    (∀ e ∈ ([⟨0, some 2, some 1, some 1⟩, ⟨1, none, none, none⟩] : List GeslaOut),
      (e.qc_flag ≠ some 1 → e.waterlevel = none) ∧
      ∃ r ∈ ([⟨0, some 2, some 1, some 1⟩, ⟨0, some 3, some 1, some 1⟩,
          ⟨1, some 4, some 3, some 1⟩] : List GeslaRecord),
        e.time = r.time ∧
        (r.qc_flag ≠ some 1 → e.waterlevel = none ∧ e.qc_flag = none) ∧
        (r.qc_flag = some 1 → e.waterlevel = r.sea_level ∧ e.qc_flag = some 1)) :=
  ⟨by with_unfolding_all decide,
    C5_quality_filter.1 _ none none _ (by with_unfolding_all decide),
    by with_unfolding_all decide,
    C5_quality_filter.2 _ none none _ (by with_unfolding_all decide)⟩

/-! ## C10: `uhslc_ssh_retrieve_data` merge of the rqds and fast datasets -/

theorem dedupKeepFirst_pairwise {α β : Type} [DecidableEq β] (key : α → β) :
    ∀ l : List α, (dedupKeepFirst key l).Pairwise (fun a b => key a ≠ key b)
  | [] => by
    rw [dedupKeepFirst]
    exact List.Pairwise.nil
  | x :: rest => by
    rw [dedupKeepFirst]
    refine List.Pairwise.cons ?_ (dedupKeepFirst_pairwise key _)
    intro b hb
    have hbf := dedupKeepFirst_subset _ _ b hb
    have hne := List.of_mem_filter hbf
    simp only [decide_eq_true_eq] at hne
    exact fun hxb => hne hxb.symm
termination_by l => l.length
decreasing_by
  simp only [List.length_cons]
  exact Nat.lt_succ_of_le (List.length_filter_le _ _)

theorem find?_filter_of_imp {α : Type} (p q : α → Bool) (l : List α)
    (h : ∀ a, p a = true → q a = true) : (l.filter q).find? p = l.find? p := by
  induction l with
  | nil => rfl
  | cons x t ih =>
    by_cases hq : q x
    · rw [List.filter_cons_of_pos hq]
      by_cases hp : p x
      · rw [List.find?_cons_of_pos _ hp, List.find?_cons_of_pos _ hp]
      · rw [List.find?_cons_of_neg _ (by simpa using hp),
          List.find?_cons_of_neg _ (by simpa using hp)]
        exact ih
    · rw [List.filter_cons_of_neg (by simpa using hq)]
      have hp : p x = false := by
        by_contra hc
        simp only [Bool.not_eq_false] at hc
        exact hq (h x hc)
      rw [List.find?_cons_of_neg _ (by simp [hp])]
      exact ih

theorem dedupKeepFirst_mem_iff {α β : Type} [DecidableEq β] (key : α → β) :
    ∀ (l : List α) (a : α),
      a ∈ dedupKeepFirst key l ↔ l.find? (fun b => decide (key b = key a)) = some a
  | [] => by
    intro a
    rw [dedupKeepFirst]
    simp
  | x :: rest => by
    intro a
    rw [dedupKeepFirst]
    by_cases hx : key x = key a
    · rw [List.find?_cons_of_pos _ (by simpa using hx)]
      constructor
      · intro ha
        rcases List.mem_cons.mp ha with h | h
        · rw [h]
        · exfalso
          have hfil := dedupKeepFirst_subset _ _ a h
          have := List.of_mem_filter hfil
          simp only [decide_eq_true_eq] at this
          exact this hx.symm
      · intro ha
        have : x = a := by simpa using ha
        rw [this]
        exact List.mem_cons_self _ _
    · rw [List.find?_cons_of_neg _ (by simpa using hx)]
      have hfind :
          (rest.filter (fun b => decide (key b ≠ key x))).find?
            (fun b => decide (key b = key a)) =
          rest.find? (fun b => decide (key b = key a)) := by
        apply find?_filter_of_imp
        intro b hb
        simp only [decide_eq_true_eq] at hb ⊢
        rw [hb]
        exact fun hcon => hx hcon.symm
      constructor
      · intro ha
        rcases List.mem_cons.mp ha with h | h
        · exact absurd (congrArg key h.symm) hx
        · rw [← hfind]
          exact (dedupKeepFirst_mem_iff key _ a).mp h
      · intro ha
        apply List.mem_cons_of_mem
        exact (dedupKeepFirst_mem_iff key _ a).mpr (hfind ▸ ha)
termination_by l => l.length
decreasing_by
  all_goals simp only [List.length_cons]
  all_goals exact Nat.lt_succ_of_le (List.length_filter_le _ _)

theorem find?_append_left {α : Type} {p : α → Bool} {l1 : List α} (l2 : List α)
    {a : α} (h : l1.find? p = some a) : (l1 ++ l2).find? p = some a := by
  induction l1 with
  | nil => cases h
  | cons x t ih =>
    by_cases hp : p x
    · rw [List.find?_cons_of_pos _ hp] at h
      rw [List.cons_append, List.find?_cons_of_pos _ hp]
      exact h
    · rw [List.find?_cons_of_neg _ (by simpa using hp)] at h
      rw [List.cons_append, List.find?_cons_of_neg _ (by simpa using hp)]
      exact ih h

/-- An observation of one UHSLC ERDDAP dataset after
`_preprocess_uhslc_erddap` (time indexed, sea level in meters). -/
structure UhslcRecord where
  time : ℤ
  sea_level : ℚ
deriving DecidableEq

/-- The merge step of `uhslc_ssh_retrieve_data`: the preprocessed rqds
dataset and then the fast dataset are appended to ds_list when their
retrieval returned data (none models an excluded dataset or the accepted
404 of `_uhslc_ssh_retrieve_data_oneds`). When ds_list is empty return
None; otherwise `xr.concat` along time (concatenation), then
`drop_duplicates(dim=time, keep=first)` (rqds entries precede fast
entries) and `sortby(time)` (a stable sort). -/
def uhslc_ssh_retrieve_data (ds_rqds ds_fast : Option (List UhslcRecord)) :
    Option (List UhslcRecord) :=
  match [ds_rqds, ds_fast].filterMap id with
  | [] => none
  | ds_list =>
    some (List.insertionSort (fun a b => a.time ≤ b.time)
      (dedupKeepFirst (fun r => r.time) ds_list.join))

instance uhslcLeTotal : IsTotal UhslcRecord (fun a b => a.time ≤ b.time) :=
  ⟨fun a b => le_total a.time b.time⟩

instance uhslcLeTrans : IsTrans UhslcRecord (fun a b => a.time ≤ b.time) :=
  ⟨fun _ _ _ hab hbc => le_trans hab hbc⟩

theorem uhslc_time_ne_symm : Symmetric (fun a b : UhslcRecord => a.time ≠ b.time) :=
  fun _ _ hab heq => hab heq.symm

theorem uhslc_out_eq (l1 l2 : List UhslcRecord) :
    uhslc_ssh_retrieve_data (some l1) (some l2) =
      some (List.insertionSort (fun a b => a.time ≤ b.time)
        (dedupKeepFirst (fun r => r.time) (l1 ++ l2))) := by
  simp [uhslc_ssh_retrieve_data, List.filterMap, List.join]

/-- Claim C10: whenever `uhslc_ssh_retrieve_data` returns a dataset, its
time coordinate is strictly increasing (sorted, no duplicate timestamps),
and for a timestamp present in the rqds dataset the record kept in the
output is the first rqds record at that timestamp (in particular, for a
timestamp present in both datasets the rqds value wins). -/
theorem C10_uhslc_merge (ds_rqds ds_fast : Option (List UhslcRecord))
    (out : List UhslcRecord)
    (h : uhslc_ssh_retrieve_data ds_rqds ds_fast = some out) :
    out.Pairwise (fun a b => a.time < b.time) ∧
    (∀ (l1 l2 : List UhslcRecord) (t : ℤ) (e0 : UhslcRecord),
      ds_rqds = some l1 → ds_fast = some l2 →
      l1.find? (fun r => decide (r.time = t)) = some e0 →
      e0 ∈ out ∧ ∀ e ∈ out, e.time = t → e = e0) := by
  have hsorted_of : ∀ (conc : List UhslcRecord),
      out = List.insertionSort (fun a b => a.time ≤ b.time)
        (dedupKeepFirst (fun r => r.time) conc) →
      out.Pairwise (fun a b => a.time < b.time) ∧
      out.Perm (dedupKeepFirst (fun r => r.time) conc) := by
    intro conc hout
    have hperm : out.Perm (dedupKeepFirst (fun r => r.time) conc) := by
      rw [hout]
      exact List.perm_insertionSort _ _
    have hsorted : out.Pairwise (fun a b => a.time ≤ b.time) := by
      rw [hout]
      exact List.sorted_insertionSort _ _
    have hne : out.Pairwise (fun a b => a.time ≠ b.time) := by
      have hpne := dedupKeepFirst_pairwise (fun r : UhslcRecord => r.time) conc
      exact (hperm.pairwise_iff @uhslc_time_ne_symm).mpr hpne
    refine ⟨?_, hperm⟩
    exact (hsorted.and hne).imp (@fun a b hab => lt_of_le_of_ne hab.1 hab.2)
  constructor
  · cases hr : ds_rqds with
    | none =>
      cases hf : ds_fast with
      | none =>
        rw [hr, hf] at h
        cases h
      | some l2 =>
        rw [hr, hf] at h
        simp only [uhslc_ssh_retrieve_data, List.filterMap, Option.some.injEq,
          List.join] at h
        exact (hsorted_of l2 (by simpa using h.symm)).1
    | some l1 =>
      cases hf : ds_fast with
      | none =>
        rw [hr, hf] at h
        simp only [uhslc_ssh_retrieve_data, List.filterMap, Option.some.injEq,
          List.join] at h
        exact (hsorted_of l1 (by simpa using h.symm)).1
      | some l2 =>
        rw [hr, hf, uhslc_out_eq] at h
        have hout := (Option.some.inj h).symm
        exact (hsorted_of (l1 ++ l2) hout).1
  · intro l1 l2 t e0 hr hf hfind
    rw [hr, hf, uhslc_out_eq] at h
    have hout := (Option.some.inj h).symm
    obtain ⟨hlt, hperm⟩ := hsorted_of (l1 ++ l2) hout
    have ht : e0.time = t := by
      have := List.find?_some hfind
      simpa using this
    subst ht
    have hfind2 : (l1 ++ l2).find? (fun r => decide (r.time = e0.time)) = some e0 :=
      find?_append_left l2 hfind
    have hmem : e0 ∈ dedupKeepFirst (fun r : UhslcRecord => r.time) (l1 ++ l2) :=
      (dedupKeepFirst_mem_iff _ _ _).mpr hfind2
    have hmemout : e0 ∈ out := hperm.mem_iff.mpr hmem
    refine ⟨hmemout, ?_⟩
    intro e he het
    by_contra hne
    have hpne : out.Pairwise (fun a b : UhslcRecord => a.time ≠ b.time) :=
      hlt.imp (@fun a b hab => ne_of_lt hab)
    have := hpne.forall @uhslc_time_ne_symm he hmemout hne
    exact this het

theorem C10_uhslc_merge_witness :
    (uhslc_ssh_retrieve_data (some [⟨2, 10⟩, ⟨1, 11⟩]) (some [⟨2, 99⟩, ⟨3, 12⟩]) =
      some [⟨1, 11⟩, ⟨2, 10⟩, ⟨3, 12⟩]) ∧
    ([⟨1, 11⟩, ⟨2, 10⟩, ⟨3, 12⟩] : List UhslcRecord).Pairwise
      (fun a b => a.time < b.time) ∧
    ((⟨2, 10⟩ : UhslcRecord) ∈ ([⟨1, 11⟩, ⟨2, 10⟩, ⟨3, 12⟩] : List UhslcRecord) ∧
      ∀ e ∈ ([⟨1, 11⟩, ⟨2, 10⟩, ⟨3, 12⟩] : List UhslcRecord),
        e.time = 2 → e = (⟨2, 10⟩ : UhslcRecord)) :=
  ⟨by with_unfolding_all decide,
    (C10_uhslc_merge (some [⟨2, 10⟩, ⟨1, 11⟩]) (some [⟨2, 99⟩, ⟨3, 12⟩])
      [⟨1, 11⟩, ⟨2, 10⟩, ⟨3, 12⟩] (by with_unfolding_all decide)).1,
    (C10_uhslc_merge (some [⟨2, 10⟩, ⟨1, 11⟩]) (some [⟨2, 99⟩, ⟨3, 12⟩])
        [⟨1, 11⟩, ⟨2, 10⟩, ⟨3, 12⟩] (by with_unfolding_all decide)).2
      [⟨2, 10⟩, ⟨1, 11⟩] [⟨2, 99⟩, ⟨3, 12⟩] 2 ⟨2, 10⟩ rfl rfl
      (by with_unfolding_all decide)⟩

/-! ## Dataset model for `_make_hydrotools_consistent` and
`ssh_retrieve_data` (C1, C6) -/

/-- A scalar attribute value: the station attributes are strings or
floats (modelled as rationals). -/
inductive AttrVal where
  | s (v : String)
  | q (v : ℚ)
deriving DecidableEq

/-- A variable value: a scalar or a time series. The series payloads are
handled by the per-provider retrieval functions and are irrelevant to the
claims about `ssh_retrieve_data`, so they are not carried here. -/
inductive VarVal where
  | scalar (v : AttrVal)
  | series
deriving DecidableEq

/-- An xarray variable: its name, attribute dict and value. -/
structure Var where
  name : String
  attrs : List (String × String)
  val : VarVal
deriving DecidableEq

/-- An xarray dataset: variables, dimensions, the subset of variable
names marked as coordinates, and global attributes. -/
structure Dataset where
  vars : List Var
  dims : List String
  coords : List String
  attrs : List (String × AttrVal)
deriving DecidableEq

/-- Assoc-list lookup for per-variable attribute dicts. -/
def lookupS (l : List (String × String)) (k : String) : Option String :=
  match l with
  | [] => none
  | (k2, v2) :: rest => if k2 = k then some v2 else lookupS rest k

/-- Assoc-list lookup for dataset attribute dicts. -/
def lookupAttr (l : List (String × AttrVal)) (k : String) : Option AttrVal :=
  match l with
  | [] => none
  | (k2, v2) :: rest => if k2 = k then some v2 else lookupAttr rest k

def getAttr (ds : Dataset) (k : String) : Option AttrVal :=
  lookupAttr ds.attrs k

/-- Variable access `ds[n]`. -/
def getVarL (l : List Var) (n : String) : Option Var :=
  match l with
  | [] => none
  | v :: rest => if v.name = n then some v else getVarL rest n

def getVar (ds : Dataset) (n : String) : Option Var :=
  getVarL ds.vars n

/-- `ds.data_vars`: the variables that are not coordinates. -/
def data_var_names (ds : Dataset) : List String :=
  (ds.vars.map (fun v => v.name)).filter (fun n => !(ds.coords.contains n))

/-- Dict update `attrs[k] = v`: replace in place or append. -/
def setAttrList (l : List (String × AttrVal)) (k : String) (v : AttrVal) :
    List (String × AttrVal) :=
  match l with
  | [] => [(k, v)]
  | (k2, v2) :: rest =>
    if k2 = k then (k, v) :: rest else (k2, v2) :: setAttrList rest k v

/-- Variable assignment `ds[name] = ...`: replace the variable of that
name or append it. -/
def setVarList (l : List Var) (v : Var) : List Var :=
  match l with
  | [] => [v]
  | w :: rest => if w.name = v.name then v :: rest else w :: setVarList rest v

def setVar (ds : Dataset) (v : Var) : Dataset :=
  { ds with vars := setVarList ds.vars v }

def x_attrs : List (String × String) :=
  [("standard_name", "longitude"), ("units", "degrees_east")]

def y_attrs : List (String × String) :=
  [("standard_name", "latitude"), ("units", "degrees_north")]

def hydro_coords : List String :=
  ["station_name", "station_id", "station_x_coordinate", "station_y_coordinate"]

/-- `ds.set_coords` of the four station coordinate variables: mark them as
coordinates (idempotent for names already marked). -/
def addHydroCoords (ds : Dataset) : Dataset :=
  { ds with coords := ds.coords ++
      (hydro_coords.filter (fun c => !(ds.coords.contains c))) }

/-- `_make_hydrotools_consistent` from observations.py: assert the time
variable and dimension, assert the waterlevel data variable with units
attribute equal to m, then add the four station coordinate variables from
the dataset attributes and mark them as coordinates. A failed assert or a
missing attribute raises. The `astype(S64)` casts are dtype bookkeeping
and are not modelled. -/
def _make_hydrotools_consistent (ds : Dataset) : Except String Dataset :=
  if "time" ∉ ds.vars.map (fun v => v.name) then
    .error "assert failed: time in ds.variables"
  else if "time" ∉ ds.dims then
    .error "assert failed: time in ds.dims"
  else if "waterlevel" ∉ data_var_names ds then
    .error "assert failed: waterlevel in ds.data_vars"
  else
    match getVar ds "waterlevel" with
    | none => .error "KeyError: waterlevel"
    | some wl =>
      match lookupS wl.attrs "units" with
      | none => .error "assert failed: waterlevel has no units attribute"
      | some u =>
        if u ≠ "m" then .error "assert failed: waterlevel units is not m"
        else
          match getAttr ds "station_name", getAttr ds "station_id",
              getAttr ds "longitude", getAttr ds "latitude" with
          | some sn, some sid, some lon, some lat =>
            .ok (addHydroCoords (setVar (setVar (setVar (setVar ds
              ⟨"station_name", [], .scalar sn⟩)
              ⟨"station_id", [], .scalar sid⟩)
              ⟨"station_x_coordinate", x_attrs, .scalar lon⟩)
              ⟨"station_y_coordinate", y_attrs, .scalar lat⟩))
          | _, _, _, _ => .error "KeyError: station attribute missing"

theorem lookupAttr_set_same (l : List (String × AttrVal)) (k : String) (v : AttrVal) :
    lookupAttr (setAttrList l k v) k = some v := by
  induction l with
  | nil => simp [setAttrList, lookupAttr]
  | cons p rest ih =>
    rcases p with ⟨k2, v2⟩
    by_cases hp : k2 = k
    · subst hp
      simp [setAttrList, lookupAttr]
    · rw [setAttrList, if_neg hp, lookupAttr, if_neg hp]
      exact ih

theorem lookupAttr_set_other (l : List (String × AttrVal)) (k k2 : String)
    (v : AttrVal) (h : k2 ≠ k) :
    lookupAttr (setAttrList l k v) k2 = lookupAttr l k2 := by
  induction l with
  | nil =>
    simp only [setAttrList, lookupAttr]
    rw [if_neg (fun hc => h hc.symm)]
  | cons p rest ih =>
    rcases p with ⟨k3, v3⟩
    by_cases hp : k3 = k
    · subst hp
      rw [setAttrList, if_pos rfl, lookupAttr, if_neg (fun hc => h hc.symm),
        lookupAttr, if_neg (fun hc => h hc.symm)]
    · rw [setAttrList, if_neg hp]
      by_cases hp2 : k3 = k2
      · rw [lookupAttr, if_pos hp2, lookupAttr, if_pos hp2]
      · rw [lookupAttr, if_neg hp2, lookupAttr, if_neg hp2]
        exact ih

theorem getVarL_set_same (l : List Var) (v : Var) :
    getVarL (setVarList l v) v.name = some v := by
  induction l with
  | nil => simp [setVarList, getVarL]
  | cons w rest ih =>
    by_cases hw : w.name = v.name
    · rw [setVarList, if_pos hw, getVarL, if_pos rfl]
    · rw [setVarList, if_neg hw, getVarL, if_neg hw]
      exact ih

theorem getVarL_set_other (l : List Var) (v : Var) (n : String) (h : n ≠ v.name) :
    getVarL (setVarList l v) n = getVarL l n := by
  induction l with
  | nil =>
    simp only [setVarList, getVarL]
    rw [if_neg (fun hc => h hc.symm)]
  | cons w rest ih =>
    by_cases hw : w.name = v.name
    · rw [setVarList, if_pos hw, getVarL, if_neg (fun hc => h hc.symm),
        getVarL, if_neg (fun hc => h (hw ▸ hc).symm)]
    · rw [setVarList, if_neg hw]
      by_cases hwn : w.name = n
      · rw [getVarL, if_pos hwn, getVarL, if_pos hwn]
      · rw [getVarL, if_neg hwn, getVarL, if_neg hwn]
        exact ih

theorem mem_names_iff_getVarL (l : List Var) (n : String) :
    n ∈ l.map (fun v => v.name) ↔ (getVarL l n).isSome := by
  induction l with
  | nil => simp [getVarL]
  | cons v rest ih =>
    by_cases hv : v.name = n
    · rw [List.map_cons, List.mem_cons, getVarL, if_pos hv]
      simp [hv.symm]
    · rw [List.map_cons, List.mem_cons, getVarL, if_neg hv, ← ih]
      constructor
      · rintro (h | h)
        · exact absurd h.symm hv
        · exact h
      · exact Or.inr

theorem not_contains_iff (l : List String) (a : String) :
    (!(l.contains a)) = true ↔ a ∉ l := by
  simp

/-- Everything `_make_hydrotools_consistent` guarantees about a dataset it
returns. -/
theorem make_hydro_props (ds ds2 : Dataset)
    (h : _make_hydrotools_consistent ds = .ok ds2) :
    ds2.attrs = ds.attrs ∧ ds2.dims = ds.dims ∧
    "time" ∈ ds2.vars.map (fun v => v.name) ∧ "time" ∈ ds2.dims ∧
    "waterlevel" ∈ data_var_names ds2 ∧
    (∃ wl, getVar ds2 "waterlevel" = some wl ∧ lookupS wl.attrs "units" = some "m") ∧
    (∀ c ∈ hydro_coords, c ∈ ds2.coords) ∧
    (∃ sn sid lon lat,
      getAttr ds "station_name" = some sn ∧ getAttr ds "station_id" = some sid ∧
      getAttr ds "longitude" = some lon ∧ getAttr ds "latitude" = some lat ∧
      getVar ds2 "station_name" = some ⟨"station_name", [], .scalar sn⟩ ∧
      getVar ds2 "station_id" = some ⟨"station_id", [], .scalar sid⟩ ∧
      getVar ds2 "station_x_coordinate" =
        some ⟨"station_x_coordinate", x_attrs, .scalar lon⟩ ∧
      getVar ds2 "station_y_coordinate" =
        some ⟨"station_y_coordinate", y_attrs, .scalar lat⟩) := by
  unfold _make_hydrotools_consistent at h
  by_cases h1 : "time" ∈ ds.vars.map (fun v => v.name)
  case neg =>
    rw [if_pos h1] at h
    cases h
  rw [if_neg (not_not_intro h1)] at h
  by_cases h2 : "time" ∈ ds.dims
  case neg =>
    rw [if_pos h2] at h
    cases h
  rw [if_neg (not_not_intro h2)] at h
  by_cases h3 : "waterlevel" ∈ data_var_names ds
  case neg =>
    rw [if_pos h3] at h
    cases h
  rw [if_neg (not_not_intro h3)] at h
  split at h
  · cases h
  rename_i wl hwl
  split at h
  · cases h
  rename_i u hu
  split at h
  · cases h
  rename_i hum
  have hum2 : u = "m" := not_not.mp hum
  subst hum2
  split at h
  case _ =>
    rename_i sn sid lon lat hsn hsid hlon hlat
    cases h
    rcases List.mem_filter.mp h3 with ⟨hwv, hwc⟩
    have hwnc : "waterlevel" ∉ ds.coords := (not_contains_iff _ _).mp hwc
    have hvars4 : ∀ n : String,
        n ≠ "station_name" → n ≠ "station_id" → n ≠ "station_x_coordinate" →
        n ≠ "station_y_coordinate" →
        getVarL (setVarList (setVarList (setVarList (setVarList ds.vars
          ⟨"station_name", [], .scalar sn⟩)
          ⟨"station_id", [], .scalar sid⟩)
          ⟨"station_x_coordinate", x_attrs, .scalar lon⟩)
          ⟨"station_y_coordinate", y_attrs, .scalar lat⟩) n = getVarL ds.vars n := by
      intro n ha hb hc hd
      rw [getVarL_set_other _ _ _ hd, getVarL_set_other _ _ _ hc,
        getVarL_set_other _ _ _ hb, getVarL_set_other _ _ _ ha]
    have hcoords : ∀ c : String,
        c ∈ (addHydroCoords (setVar (setVar (setVar (setVar ds
          ⟨"station_name", [], .scalar sn⟩)
          ⟨"station_id", [], .scalar sid⟩)
          ⟨"station_x_coordinate", x_attrs, .scalar lon⟩)
          ⟨"station_y_coordinate", y_attrs, .scalar lat⟩)).coords ↔
        (c ∈ ds.coords ∨ c ∈ hydro_coords) := by
      intro c
      show c ∈ ds.coords ++ (hydro_coords.filter (fun c => !(ds.coords.contains c))) ↔ _
      rw [List.mem_append]
      constructor
      · rintro (hc | hc)
        · exact Or.inl hc
        · exact Or.inr (List.mem_of_mem_filter hc)
      · rintro (hc | hc)
        · exact Or.inl hc
        · by_cases hcd : c ∈ ds.coords
          · exact Or.inl hcd
          · exact Or.inr (List.mem_filter.mpr ⟨hc, (not_contains_iff _ _).mpr hcd⟩)
    refine ⟨rfl, rfl, ?_, h2, ?_, ⟨wl, ?_, hu⟩, ?_, sn, sid, lon, lat, hsn, hsid,
      hlon, hlat, ?_, ?_, ?_, ?_⟩
    · rw [mem_names_iff_getVarL]
      show (getVarL (setVarList (setVarList (setVarList (setVarList ds.vars _) _) _) _)
        "time").isSome
      rw [hvars4 "time" (by decide) (by decide) (by decide) (by decide)]
      rw [← mem_names_iff_getVarL]
      exact h1
    · apply List.mem_filter.mpr
      constructor
      · rw [mem_names_iff_getVarL]
        show (getVarL (setVarList (setVarList (setVarList (setVarList ds.vars _) _) _) _)
          "waterlevel").isSome
        rw [hvars4 "waterlevel" (by decide) (by decide) (by decide) (by decide)]
        rw [← mem_names_iff_getVarL]
        exact hwv
      · apply (not_contains_iff _ _).mpr
        rw [hcoords]
        rintro (hc | hc)
        · exact hwnc hc
        · exact absurd hc (by decide)
    · show getVarL (setVarList (setVarList (setVarList (setVarList ds.vars _) _) _) _)
        "waterlevel" = some wl
      rw [hvars4 "waterlevel" (by decide) (by decide) (by decide) (by decide)]
      exact hwl
    · intro c hc
      rw [hcoords]
      exact Or.inr hc
    · show getVarL (setVarList (setVarList (setVarList (setVarList ds.vars _) _) _) _)
        "station_name" = _
      rw [getVarL_set_other _ _ _
          (show ("station_name" : String) ≠ "station_y_coordinate" by decide),
        getVarL_set_other _ _ _
          (show ("station_name" : String) ≠ "station_x_coordinate" by decide),
        getVarL_set_other _ _ _
          (show ("station_name" : String) ≠ "station_id" by decide)]
      exact getVarL_set_same _ _
    · show getVarL (setVarList (setVarList (setVarList (setVarList ds.vars _) _) _) _)
        "station_id" = _
      rw [getVarL_set_other _ _ _
          (show ("station_id" : String) ≠ "station_y_coordinate" by decide),
        getVarL_set_other _ _ _
          (show ("station_id" : String) ≠ "station_x_coordinate" by decide)]
      exact getVarL_set_same _ _
    · show getVarL (setVarList (setVarList (setVarList (setVarList ds.vars _) _) _) _)
        "station_x_coordinate" = _
      rw [getVarL_set_other _ _ _
          (show ("station_x_coordinate" : String) ≠ "station_y_coordinate" by decide)]
      exact getVarL_set_same _ _
    · show getVarL (setVarList (setVarList (setVarList (setVarList ds.vars _) _) _) _)
        "station_y_coordinate" = _
      exact getVarL_set_same _ _

  case _ =>
    cases h

/-- A row of a station catalog handed to `ssh_retrieve_data`: the columns
and the point geometry the function reads. -/
structure CatalogRow where
  station_name : String
  station_id : String
  station_name_unique : String
  x : ℚ
  y : ℚ
  country : String
  source : String
deriving DecidableEq

/-- The keys of the `ssh_sources` dict of `ssh_retrieve_data`. -/
def ssh_retrieve_sources : List String :=
  ["gesla3", "ioc", "cmems", "cmems-nrt", "uhslc", "psmsl-gnssir", "rwsddl",
    "gtsm3-era5-cds"]

/-- The attribute dict after `ds.assign_attrs(...)` with the station
metadata of the catalog row (`longitude`/`latitude` are the x/y of the
row geometry). -/
def assignRowAttrsList (attrs : List (String × AttrVal)) (row : CatalogRow) :
    List (String × AttrVal) :=
  setAttrList (setAttrList (setAttrList (setAttrList (setAttrList (setAttrList
    (setAttrList attrs
      "station_name" (.s row.station_name))
      "station_id" (.s row.station_id))
      "station_name_unique" (.s row.station_name_unique))
      "longitude" (.q row.x))
      "latitude" (.q row.y))
      "country" (.s row.country))
      "source" (.s row.source)

def assignRowAttrs (ds : Dataset) (row : CatalogRow) : Dataset :=
  { ds with attrs := assignRowAttrsList ds.attrs row }

theorem assignRowAttrsList_lookups (attrs : List (String × AttrVal))
    (row : CatalogRow) :
    lookupAttr (assignRowAttrsList attrs row) "station_name" =
      some (.s row.station_name) ∧
    lookupAttr (assignRowAttrsList attrs row) "station_id" =
      some (.s row.station_id) ∧
    lookupAttr (assignRowAttrsList attrs row) "station_name_unique" =
      some (.s row.station_name_unique) ∧
    lookupAttr (assignRowAttrsList attrs row) "longitude" = some (.q row.x) ∧
    lookupAttr (assignRowAttrsList attrs row) "latitude" = some (.q row.y) := by
  unfold assignRowAttrsList
  refine ⟨?_, ?_, ?_, ?_, ?_⟩ <;>
    · repeat rw [lookupAttr_set_other _ _ _ _ (by decide)]
      exact lookupAttr_set_same _ _ _

/-- The body of the retrieval loop of `ssh_retrieve_data` for one station:
when the provider function returns None the station is skipped, otherwise
the station attributes are assigned, waterlevel is cast to float32 (a
dtype change; a missing waterlevel variable raises KeyError here),
`_make_hydrotools_consistent` is applied, and the dataset is written to
`<station_name_unique>.nc`. -/
def processRow (retrieve : CatalogRow → Option Dataset) (row : CatalogRow) :
    Except String (Option (String × Dataset)) :=
  match retrieve row with
  | none => .ok none
  | some ds0 =>
    if "waterlevel" ∉ (assignRowAttrs ds0 row).vars.map (fun v => v.name) then
      .error "KeyError: waterlevel"
    else
      match _make_hydrotools_consistent (assignRowAttrs ds0 row) with
      | .error e => .error e
      | .ok ds2 =>
        match getAttr ds2 "station_name_unique" with
        | some (.s statname) => .ok (some (statname ++ ".nc", ds2))
        | _ => .error "KeyError: station_name_unique"

/-- The file one catalog row contributes, when the run succeeds. -/
def processedFile (retrieve : CatalogRow → Option Dataset) (row : CatalogRow) :
    Option (String × Dataset) :=
  match processRow retrieve row with
  | .ok (some f) => some f
  | _ => none

/-- The retrieval loop of `ssh_retrieve_data`: stations are processed in
catalog order, any raised exception aborts the run. -/
def runRows (retrieve : CatalogRow → Option Dataset) :
    List CatalogRow → Except String (List (String × Dataset))
  | [] => .ok []
  | row :: rest =>
    match processRow retrieve row with
    | .error e => .error e
    | .ok o =>
      match runRows retrieve rest with
      | .error e => .error e
      | .ok files => .ok (o.toList ++ files)

/-- `ssh_retrieve_data` from observations.py. The per-provider retrieval
functions perform network and file I/O, so the dispatch table is the
parameter `providers` from source name to retrieval function; the eight
supported names are the keys of the `ssh_sources` dict of the code. The
`dir_output` creation is file-system I/O and is not modelled; the result
lists the written files. -/
def ssh_retrieve_data (providers : String → CatalogRow → Option Dataset)
    (ssh_catalog : List CatalogRow) : Except String (List (String × Dataset)) :=
  if ssh_catalog.isEmpty then
    .error "empty ssh_catalog_gpd provided to ssh_retrieve_data"
  else
    if 1 < (uniqueFirst (ssh_catalog.map (fun r => r.source))).length then
      .error "A ssh_catalog_gpd with multiple unique source values was passed, this is not supported."
    else
      match uniqueFirst (ssh_catalog.map (fun r => r.source)) with
      | [source] =>
        if source ∈ ssh_retrieve_sources then runRows (providers source) ssh_catalog
        else .error "source for ssh_retrieve_data should be one of the supported source names"
      | _ => .error "unreachable: a nonempty catalog has a source value"

theorem processRow_some_props (retrieve : CatalogRow → Option Dataset)
    (row : CatalogRow) (f : String × Dataset)
    (h : processRow retrieve row = .ok (some f)) :
    (∃ ds0, retrieve row = some ds0) ∧
    f.1 = row.station_name_unique ++ ".nc" ∧
    "waterlevel" ∈ data_var_names f.2 ∧
    (∃ wl, getVar f.2 "waterlevel" = some wl ∧ lookupS wl.attrs "units" = some "m") ∧
    "time" ∈ f.2.vars.map (fun v => v.name) ∧ "time" ∈ f.2.dims ∧
    (∀ c ∈ hydro_coords, c ∈ f.2.coords) ∧
    getVar f.2 "station_name" =
      some ⟨"station_name", [], .scalar (.s row.station_name)⟩ ∧
    getVar f.2 "station_id" =
      some ⟨"station_id", [], .scalar (.s row.station_id)⟩ ∧
    getVar f.2 "station_x_coordinate" =
      some ⟨"station_x_coordinate", x_attrs, .scalar (.q row.x)⟩ ∧
    getVar f.2 "station_y_coordinate" =
      some ⟨"station_y_coordinate", y_attrs, .scalar (.q row.y)⟩ := by
  unfold processRow at h
  split at h
  · cases h
  rename_i ds0 hds0
  split at h
  · cases h
  split at h
  · cases h
  rename_i ds2 hds2
  split at h
  case _ =>
    rename_i statname hstat
    cases h
    obtain ⟨hattrs, hdims, htime, htimed, hwldv, hwlu, hcoords2,
      sn, sid, lon, lat, hsn, hsid, hlon, hlat, hvsn, hvsid, hvlon, hvlat⟩ :=
      make_hydro_props _ _ hds2
    have hA := assignRowAttrsList_lookups ds0.attrs row
    have hsn2 : sn = .s row.station_name := by
      have hx : getAttr (assignRowAttrs ds0 row) "station_name" =
          some (.s row.station_name) := hA.1
      rw [hsn] at hx
      exact Option.some.inj hx
    have hsid2 : sid = .s row.station_id := by
      have hx : getAttr (assignRowAttrs ds0 row) "station_id" =
          some (.s row.station_id) := hA.2.1
      rw [hsid] at hx
      exact Option.some.inj hx
    have hlon2 : lon = .q row.x := by
      have hx : getAttr (assignRowAttrs ds0 row) "longitude" =
          some (.q row.x) := hA.2.2.2.1
      rw [hlon] at hx
      exact Option.some.inj hx
    have hlat2 : lat = .q row.y := by
      have hx : getAttr (assignRowAttrs ds0 row) "latitude" =
          some (.q row.y) := hA.2.2.2.2
      rw [hlat] at hx
      exact Option.some.inj hx
    have hstat2 : statname = row.station_name_unique := by
      have hget : getAttr ds2 "station_name_unique" =
          some (.s row.station_name_unique) := by
        unfold getAttr
        rw [hattrs]
        exact hA.2.2.1
      rw [hstat] at hget
      exact AttrVal.s.inj (Option.some.inj hget)
    subst hsn2 hsid2 hlon2 hlat2
    refine ⟨⟨ds0, hds0⟩, ?_, hwldv, hwlu, htime, htimed, hcoords2,
      hvsn, hvsid, hvlon, hvlat⟩
    show statname ++ ".nc" = row.station_name_unique ++ ".nc"
    rw [hstat2]
  case _ => cases h

theorem runRows_ok_files (retrieve : CatalogRow → Option Dataset) :
    ∀ (rows : List CatalogRow) (files : List (String × Dataset)),
      runRows retrieve rows = .ok files →
      files = rows.filterMap (processedFile retrieve)
  | [], files, h => by
    cases h
    rfl
  | row :: rest, files, h => by
    unfold runRows at h
    split at h
    · cases h
    rename_i o ho
    split at h
    · cases h
    rename_i fs hfs
    cases h
    have hrest := runRows_ok_files retrieve rest fs hfs
    rw [List.filterMap_cons]
    cases o with
    | none =>
      have hpf : processedFile retrieve row = none := by
        unfold processedFile
        rw [ho]
      rw [hpf, ← hrest]
      rfl
    | some f =>
      have hpf : processedFile retrieve row = some f := by
        unfold processedFile
        rw [ho]
      rw [hpf, ← hrest]
      rfl

theorem ssh_retrieve_data_ok_run (providers : String → CatalogRow → Option Dataset)
    (catalog : List CatalogRow) (files : List (String × Dataset)) (src : String)
    (hsrc : uniqueFirst (catalog.map (fun r => r.source)) = [src])
    (h : ssh_retrieve_data providers catalog = .ok files) :
    runRows (providers src) catalog = .ok files := by
  unfold ssh_retrieve_data at h
  split at h
  · cases h
  split at h
  · cases h
  split at h
  case _ =>
    rename_i source hsource
    rw [hsrc] at hsource
    cases hsource
    split at h
    · exact h
    · cases h
  case _ => cases h

/-- Claim C1: when `ssh_retrieve_data` completes, the files written are
exactly those of the catalog rows whose retrieval returned a dataset
(stations whose retrieval returns None are skipped and contribute no
file), and every written dataset carries a waterlevel data variable with
units m, a time variable and dimension, and the four station coordinates
taken from the catalog row. -/
theorem C1_retrieve_outputs (providers : String → CatalogRow → Option Dataset)
    (catalog : List CatalogRow) (files : List (String × Dataset)) (src : String)
    (hsrc : uniqueFirst (catalog.map (fun r => r.source)) = [src])
    (h : ssh_retrieve_data providers catalog = .ok files) :
    files = catalog.filterMap (processedFile (providers src)) ∧
    (∀ row, providers src row = none → processedFile (providers src) row = none) ∧
    (∀ f ∈ files, ∃ row ∈ catalog,
      processedFile (providers src) row = some f ∧
      ((∃ ds0, providers src row = some ds0) ∧
        f.1 = row.station_name_unique ++ ".nc" ∧
        "waterlevel" ∈ data_var_names f.2 ∧
        (∃ wl, getVar f.2 "waterlevel" = some wl ∧
          lookupS wl.attrs "units" = some "m") ∧
        "time" ∈ f.2.vars.map (fun v => v.name) ∧ "time" ∈ f.2.dims ∧
        (∀ c ∈ hydro_coords, c ∈ f.2.coords) ∧
        getVar f.2 "station_name" =
          some ⟨"station_name", [], .scalar (.s row.station_name)⟩ ∧
        getVar f.2 "station_id" =
          some ⟨"station_id", [], .scalar (.s row.station_id)⟩ ∧
        getVar f.2 "station_x_coordinate" =
          some ⟨"station_x_coordinate", x_attrs, .scalar (.q row.x)⟩ ∧
        getVar f.2 "station_y_coordinate" =
          some ⟨"station_y_coordinate", y_attrs, .scalar (.q row.y)⟩)) := by
  have hrun := ssh_retrieve_data_ok_run providers catalog files src hsrc h
  have hfiles := runRows_ok_files (providers src) catalog files hrun
  refine ⟨hfiles, ?_, ?_⟩
  · intro row hnone
    unfold processedFile processRow
    rw [hnone]
  · intro f hf
    rw [hfiles] at hf
    rcases List.mem_filterMap.mp hf with ⟨row, hrow, hpf⟩
    have hpr : processRow (providers src) row = .ok (some f) := by
      unfold processedFile at hpf
      cases hx : processRow (providers src) row with
      | error e =>
        rw [hx] at hpf
        cases hpf
      | ok o =>
        cases o with
        | none =>
          rw [hx] at hpf
          cases hpf
        | some f2 =>
          rw [hx] at hpf
          cases hpf
          rfl
    exact ⟨row, hrow, hpf, processRow_some_props (providers src) row f hpr⟩

/-! ## Catalog reader schemas and `ssh_catalog_subset` (C4, C6) -/

/-- A catalog at the schema level: its column names (the point geometry
is the geometry column) and its coordinate reference system. -/
structure CatalogSchema where
  cols : List String
  crs : String
deriving DecidableEq

/-- pandas `rename(columns={o: n})`. -/
def renameCol (cols : List String) (o n : String) : List String :=
  cols.map (fun c => if c = o then n else c)

/-- pandas `drop(columns=drop)`. -/
def dropCols (cols drop : List String) : List String :=
  cols.filter (fun c => !(drop.contains c))

/-- pandas column assignment: adds the column when absent. -/
def addCol (cols : List String) (c : String) : List String :=
  if c ∈ cols then cols else cols ++ [c]

def addCols (cols : List String) (cs : List String) : List String :=
  cs.foldl addCol cols

/-- Columns of the SSC service.php json payload, as consulted by
`ssc_ssh_read_catalog`. -/
def ssc_json_cols : List String :=
  ["ssc_id", "name", "country", "psmsl", "ioc", "ptwc", "gloss", "uhslc",
    "sonel_gps", "sonel_tg", "geo:lat", "geo:lon"]

/-- Schema of `ssc_ssh_read_catalog` (linked_stations=False): add
station_name_unique, set the index keeping the column, build the geometry
from geo:lon/geo:lat and drop them, rename name and ssc_id. No
time_min/time_max columns are ever created for this source. -/
def ssc_ssh_read_catalog_schema : CatalogSchema :=
  ⟨renameCol (renameCol
      (dropCols (addCol (addCol ssc_json_cols "station_name_unique") "geometry")
        ["geo:lon", "geo:lat"])
      "name" "station_name") "ssc_id" "station_id",
    "EPSG:4326"⟩

/-- Columns of the GESLA3 metadata csv after the lowercase/cleanup of the
header, as consulted by `gesla3_ssh_read_catalog`. -/
def gesla3_meta_cols : List String :=
  ["file_name", "site_name", "country", "contributor_abbreviated",
    "latitude", "longitude", "start_date_time", "end_date_time",
    "number_of_years", "time_zone_hours", "datum_information", "instrument",
    "precision", "null_value", "gauge_type", "record_quality"]

/-- Schema of `gesla3_ssh_read_catalog`: set the index on file_name, drop
the coastal filter rows (schema preserving), build the geometry, define
the station columns, rename the date columns to time_min/time_max, add
time_ndays. -/
def gesla3_ssh_read_catalog_schema : CatalogSchema :=
  ⟨addCol (renameCol (renameCol
      (addCol (addCol (addCol
        (dropCols (addCol gesla3_meta_cols "geometry") ["longitude", "latitude"])
        "station_name_unique") "station_id") "station_name")
      "start_date_time" "time_min") "end_date_time" "time_max") "time_ndays",
    "EPSG:4326"⟩

/-- Columns of the IOC stationlist json payload, as consulted by
`ioc_ssh_read_catalog`. -/
def ioc_json_cols : List String :=
  ["Code", "code", "Location", "country", "lon", "lat", "UTCOffset",
    "date_created", "lasttime"]

/-- Schema of `ioc_ssh_read_catalog` with the default drop flags: build
the geometry and drop the raw coordinate columns, derive time_min and
time_max from the metadata, define the station columns, add the
UHSLC/inSSClist bookkeeping columns of the drop_uhslc filter, add
time_ndays. -/
def ioc_ssh_read_catalog_schema : CatalogSchema :=
  ⟨addCol (addCols
      (dropCols (addCol ioc_json_cols "geometry") ["Lon", "lat", "lon"])
      ["time_min", "time_max", "station_name", "station_id",
        "station_name_unique", "UHSLC", "inSSClist"]) "time_ndays",
    "EPSG:4326"⟩

/-- Columns of the CMEMS insitu index_history.txt file, as consulted by
`cmems_ssh_read_catalog`. -/
def cmems_index_cols : List String :=
  ["catalog_id", "file_name", "geospatial_lat_min", "geospatial_lat_max",
    "geospatial_lon_min", "geospatial_lon_max", "time_coverage_start",
    "time_coverage_end", "provider", "date_update", "data_mode", "parameters"]

/-- Schema of `cmems_ssh_read_catalog` (both the my and the nrt dataset_id
produce the same schema): build the geometry from the geospatial extremes
and drop them, add the dummy country and the station columns, rename the
coverage columns to time_min/time_max, add time_ndays. -/
def cmems_ssh_read_catalog_schema : CatalogSchema :=
  ⟨addCol (renameCol (renameCol
      (addCols
        (dropCols (addCol cmems_index_cols "geometry")
          ["geospatial_lon_min", "geospatial_lon_max",
            "geospatial_lat_min", "geospatial_lat_max"])
        ["country", "station_name", "station_id", "station_name_unique"])
      "time_coverage_start" "time_min") "time_coverage_end" "time_max")
      "time_ndays",
    "EPSG:4326"⟩

/-- Columns of the UHSLC meta.geojson payload, as consulted by
`uhslc_ssh_read_catalog` (geopandas read_file already yields the geometry
column and the EPSG:4326 crs of the geojson). -/
def uhslc_geojson_cols : List String :=
  ["uhslc_id", "name", "country", "country_code", "gloss_id", "ssc_id",
    "rq_span", "fd_span", "rq_basin", "rq_versions", "geometry"]

/-- Schema of `uhslc_ssh_read_catalog`: `_uhslc_get_json` drops the
rq_basin/rq_versions columns and shifts the longitudes, then time_min and
time_max are derived from the rqds/fast spans, station_name_unique is
added and name/uhslc_id renamed, time_ndays is added. -/
def uhslc_ssh_read_catalog_schema : CatalogSchema :=
  ⟨addCol (renameCol (renameCol
      (addCol (addCols (dropCols uhslc_geojson_cols ["rq_basin", "rq_versions"])
        ["time_min", "time_max"]) "station_name_unique")
      "name" "station_name") "uhslc_id" "station_id") "time_ndays",
    "EPSG:4326"⟩

/-- Columns of the psmsl gnssir sites.json payload, as consulted by
`psmsl_gnssir_ssh_read_catalog`. -/
def psmsl_sites_cols : List String := ["Code", "CountryCode", "Longitude", "Latitude"]

/-- Schema of `psmsl_gnssir_ssh_read_catalog`: rename CountryCode, build
the geometry and drop the raw coordinates, define the station columns. The
time extents are only fetched by `psmsl_gnssir_ssh_read_catalog_gettimes`,
which `ssh_catalog_subset` calls only when a time subset is requested. -/
def psmsl_gnssir_ssh_read_catalog_schema : CatalogSchema :=
  ⟨addCols (dropCols (addCol (renameCol psmsl_sites_cols "CountryCode" "country")
      "geometry") ["Longitude", "Latitude"])
    ["station_name", "station_id", "station_name_unique"],
    "EPSG:4326"⟩

/-- Columns of the ddlpy.locations() frame, as consulted by
`rwsddl_ssh_read_catalog` (the index is the station Code). -/
def rwsddl_locations_cols : List String :=
  ["Naam", "X", "Y", "Coordinatenstelsel", "Grootheid.Code", "Groepering.Code"]

/-- Schema of `rwsddl_ssh_read_catalog`: subset on the meta dict (schema
preserving), reset the index adding Code, build the geometry from X/Y in
the catalog EPSG and convert to EPSG:4326, add the station columns and the
constant country. No time_min/time_max columns are created; the separate
`rwsddl_ssh_get_time_max` helper is not called by the catalog reader. -/
def rwsddl_ssh_read_catalog_schema : CatalogSchema :=
  ⟨addCols (addCol (addCol rwsddl_locations_cols "Code") "geometry")
    ["station_name", "station_name_unique", "station_id", "country"],
    "EPSG:4326"⟩

/-- Columns of the GTSM output locations csv, as consulted by
`gtsm3_era5_cds_ssh_read_catalog`. -/
def gtsm3_locations_cols : List String := ["station_id", "station_name", "lon", "lat"]

/-- Schema of `gtsm3_era5_cds_ssh_read_catalog`: build the geometry and
drop lon/lat, add station_name_unique, the empty country and the fixed
time extent columns. -/
def gtsm3_era5_cds_ssh_read_catalog_schema : CatalogSchema :=
  ⟨addCols (dropCols (addCol gtsm3_locations_cols "geometry") ["lon", "lat"])
    ["station_name_unique", "country", "time_min", "time_max", "time_ndays"],
    "EPSG:4326"⟩

/-- The keys of the `ssh_sources` dict of `ssh_catalog_subset`. -/
def ssh_catalog_sources : List String :=
  ["ssc", "gesla3", "ioc", "cmems", "cmems-nrt", "uhslc", "psmsl-gnssir",
    "rwsddl", "gtsm3-era5-cds"]

/-- The catalog reader dispatch of `ssh_catalog_subset` at the schema
level (the catch-all is unreachable: the source is validated first). -/
def catalog_read_schema : String → CatalogSchema
  | "ssc" => ssc_ssh_read_catalog_schema
  | "gesla3" => gesla3_ssh_read_catalog_schema
  | "ioc" => ioc_ssh_read_catalog_schema
  | "cmems" => cmems_ssh_read_catalog_schema
  | "cmems-nrt" => cmems_ssh_read_catalog_schema
  | "uhslc" => uhslc_ssh_read_catalog_schema
  | "psmsl-gnssir" => psmsl_gnssir_ssh_read_catalog_schema
  | "rwsddl" => rwsddl_ssh_read_catalog_schema
  | "gtsm3-era5-cds" => gtsm3_era5_cds_ssh_read_catalog_schema
  | _ => ⟨[], ""⟩

/-- `ssh_catalog_subset` from observations.py at the schema level:
validate the source name, read the per-source catalog, add the source
column; the spatial clip and sort preserve the schema. `timeFilter` is
true when both time_min and time_max arguments are given: then the
psmsl-gnssir time extents are fetched first, and a catalog without
time_min raises KeyError. -/
def ssh_catalog_subset (source : String) (timeFilter : Bool) :
    Except String CatalogSchema :=
  if source ∉ ssh_catalog_sources then
    .error "source for ssh_catalog_subset should be one of the supported source names"
  else
    let cat : CatalogSchema :=
      ⟨addCol (catalog_read_schema source).cols "source",
        (catalog_read_schema source).crs⟩
    if timeFilter then
      let cat2 : CatalogSchema :=
        if source = "psmsl-gnssir" then
          ⟨addCols cat.cols ["time_min", "time_max", "time_ndays"], cat.crs⟩
        else cat
      if "time_min" ∉ cat2.cols then
        .error "KeyError: catalog does not contain time_min and time_max, no time subsetting possible"
      else .ok cat2
    else .ok cat

/-- The six sources whose `ssh_catalog_subset` catalog carries the
time_min/time_max columns without a time filter. -/
def time_sources : List String :=
  ["gesla3", "ioc", "cmems", "cmems-nrt", "uhslc", "gtsm3-era5-cds"]

/-- Claim C4 (amended): for every supported source the catalog returned by
`ssh_catalog_subset` has a point geometry in EPSG:4326 and the
station_name/station_id/station_name_unique identification columns, but
the temporal coverage columns time_min/time_max are present exactly for
gesla3, ioc, cmems, cmems-nrt, uhslc and gtsm3-era5-cds: ssc, rwsddl and
(without a time filter) psmsl-gnssir catalogs carry no time columns. -/
theorem C4_catalog_schema (source : String) (h : source ∈ ssh_catalog_sources) :
    ∃ c, ssh_catalog_subset source false = .ok c ∧
      c.crs = "EPSG:4326" ∧ "geometry" ∈ c.cols ∧
      "station_name" ∈ c.cols ∧ "station_id" ∈ c.cols ∧
      "station_name_unique" ∈ c.cols ∧ "source" ∈ c.cols ∧
      (("time_min" ∈ c.cols ∧ "time_max" ∈ c.cols) ↔ source ∈ time_sources) := by
  fin_cases h <;>
    exact ⟨_, rfl, by with_unfolding_all decide, by with_unfolding_all decide,
      by with_unfolding_all decide, by with_unfolding_all decide,
      by with_unfolding_all decide, by with_unfolding_all decide,
      by with_unfolding_all decide⟩

theorem C4_catalog_schema_witness :
    "gesla3" ∈ ssh_catalog_sources ∧
    (∃ c, ssh_catalog_subset "gesla3" false = .ok c ∧
      c.crs = "EPSG:4326" ∧ "geometry" ∈ c.cols ∧
      "station_name" ∈ c.cols ∧ "station_id" ∈ c.cols ∧
      "station_name_unique" ∈ c.cols ∧ "source" ∈ c.cols ∧
      (("time_min" ∈ c.cols ∧ "time_max" ∈ c.cols) ↔ "gesla3" ∈ time_sources)) :=
  ⟨by decide, C4_catalog_schema "gesla3" (by decide)⟩

instance exceptDecEq {ε α : Type} [DecidableEq ε] [DecidableEq α] :
    DecidableEq (Except ε α)
  | .error e1, .error e2 =>
    if h : e1 = e2 then isTrue (by rw [h]) else isFalse (fun hc => h (Except.error.inj hc))
  | .error _, .ok _ => isFalse (fun hc => Except.noConfusion hc)
  | .ok _, .error _ => isFalse (fun hc => Except.noConfusion hc)
  | .ok a1, .ok a2 =>
    if h : a1 = a2 then isTrue (by rw [h]) else isFalse (fun hc => h (Except.ok.inj hc))

/-- Claim C4, counterexample to the claim as stated: the rwsddl catalog
returned by `ssh_catalog_subset` has no time_min/time_max columns, so not
every supported source yields a catalog with temporal coverage. -/
theorem C4_counterexample :
    ssh_catalog_subset "rwsddl" false =
      .ok ⟨["Naam", "X", "Y", "Coordinatenstelsel", "Grootheid.Code",
        "Groepering.Code", "Code", "geometry", "station_name",
        "station_name_unique", "station_id", "country", "source"],
        "EPSG:4326"⟩ ∧
    "time_min" ∉ ["Naam", "X", "Y", "Coordinatenstelsel", "Grootheid.Code",
      "Groepering.Code", "Code", "geometry", "station_name",
      "station_name_unique", "station_id", "country", "source"] ∧
    "time_max" ∉ ["Naam", "X", "Y", "Coordinatenstelsel", "Grootheid.Code",
      "Groepering.Code", "Code", "geometry", "station_name",
      "station_name_unique", "station_id", "country", "source"] := by
  refine ⟨?_, by decide, by decide⟩
  with_unfolding_all decide

/-! ## C6 and the concrete fixtures for C1/C6 -/

/-- Claim C6: the two dispatch functions validate their inputs:
`ssh_catalog_subset` raises ValueError for a source outside its nine
supported names; `ssh_retrieve_data` raises ValueError on an empty
catalog, raises when the source column has more than one unique value,
and raises ValueError when the single source is not one of its eight
supported names. -/
theorem C6_dispatch_validation :
    (∀ (source : String) (timeFilter : Bool), source ∉ ssh_catalog_sources →
      ∃ e, ssh_catalog_subset source timeFilter = .error e) ∧
    (∀ providers : String → CatalogRow → Option Dataset,
      ∃ e, ssh_retrieve_data providers [] = .error e) ∧
    (∀ (providers : String → CatalogRow → Option Dataset)
      (catalog : List CatalogRow),
      1 < (uniqueFirst (catalog.map (fun r => r.source))).length →
      ∃ e, ssh_retrieve_data providers catalog = .error e) ∧
    (∀ (providers : String → CatalogRow → Option Dataset)
      (catalog : List CatalogRow) (src : String),
      uniqueFirst (catalog.map (fun r => r.source)) = [src] →
      src ∉ ssh_retrieve_sources →
      ∃ e, ssh_retrieve_data providers catalog = .error e) := by
  refine ⟨?_, ?_, ?_, ?_⟩
  · intro source timeFilter hns
    refine ⟨"source for ssh_catalog_subset should be one of the supported source names", ?_⟩
    unfold ssh_catalog_subset
    rw [if_pos hns]
  · intro providers
    exact ⟨_, rfl⟩
  · intro providers catalog hgt
    have hne : catalog.isEmpty = false := by
      cases catalog with
      | nil => simp [uniqueFirst, dedupKeepFirst] at hgt
      | cons a t => rfl
    refine ⟨"A ssh_catalog_gpd with multiple unique source values was passed, this is not supported.", ?_⟩
    unfold ssh_retrieve_data
    rw [if_neg (by simp [hne]), if_pos hgt]
  · intro providers catalog src hsrc hns
    have hne : catalog.isEmpty = false := by
      cases catalog with
      | nil => simp [uniqueFirst, dedupKeepFirst] at hsrc
      | cons a t => rfl
    refine ⟨"source for ssh_retrieve_data should be one of the supported source names", ?_⟩
    unfold ssh_retrieve_data
    rw [if_neg (by simp [hne]), if_neg (by rw [hsrc]; simp), hsrc]
    show (if src ∈ ssh_retrieve_sources then runRows (providers src) catalog
      else .error "source for ssh_retrieve_data should be one of the supported source names") = _
    rw [if_neg hns]

/-- A provider dataset used by the concrete checks below: a time series
with a waterlevel variable in meters, as the retrieval functions build. -/
def wit_ds0 : Dataset :=
  ⟨[⟨"time", [], .series⟩, ⟨"waterlevel", [("units", "m")], .series⟩],
    ["time"], [], []⟩

def wit_rowA : CatalogRow := ⟨"alpha", "a", "ioc-a", 1, 2, "NLD", "ioc"⟩

def wit_rowB : CatalogRow := ⟨"beta", "b", "ioc-b", 3, 4, "NLD", "ioc"⟩

def wit_rowC : CatalogRow := ⟨"gamma", "c", "ssc-c", 5, 6, "BEL", "ssc"⟩

/-- A provider table that returns data for station id a only. -/
def wit_providers : String → CatalogRow → Option Dataset :=
  fun _ row => if row.station_id = "a" then some wit_ds0 else none

theorem C6_dispatch_validation_witness :
    ("nope" ∉ ssh_catalog_sources ∧
      ∃ e, ssh_catalog_subset "nope" false = .error e) ∧
    (∃ e, ssh_retrieve_data wit_providers [] = .error e) ∧
    (1 < (uniqueFirst ([wit_rowA, wit_rowC].map (fun r => r.source))).length ∧
      ∃ e, ssh_retrieve_data wit_providers [wit_rowA, wit_rowC] = .error e) ∧
    (uniqueFirst ([wit_rowC].map (fun r => r.source)) = ["ssc"] ∧
      "ssc" ∉ ssh_retrieve_sources ∧
      ∃ e, ssh_retrieve_data wit_providers [wit_rowC] = .error e) :=
  ⟨⟨by decide, C6_dispatch_validation.1 "nope" false (by decide)⟩,
    C6_dispatch_validation.2.1 wit_providers,
    ⟨by with_unfolding_all decide,
      C6_dispatch_validation.2.2.1 wit_providers _ (by with_unfolding_all decide)⟩,
    ⟨by with_unfolding_all decide, by decide,
      C6_dispatch_validation.2.2.2 wit_providers _ "ssc"
        (by with_unfolding_all decide) (by decide)⟩⟩

theorem C1_retrieve_outputs_witness :
    (uniqueFirst ([wit_rowA, wit_rowB].map (fun r => r.source)) = ["ioc"]) ∧
    (ssh_retrieve_data wit_providers [wit_rowA, wit_rowB] =
      .ok ([wit_rowA, wit_rowB].filterMap (processedFile (wit_providers "ioc")))) ∧
    ([wit_rowA, wit_rowB].filterMap (processedFile (wit_providers "ioc")) =
        [wit_rowA, wit_rowB].filterMap (processedFile (wit_providers "ioc")) ∧
      (∀ row, wit_providers "ioc" row = none →
        processedFile (wit_providers "ioc") row = none) ∧
      (∀ f ∈ [wit_rowA, wit_rowB].filterMap (processedFile (wit_providers "ioc")),
        ∃ row ∈ [wit_rowA, wit_rowB],
        processedFile (wit_providers "ioc") row = some f ∧
        ((∃ ds0, wit_providers "ioc" row = some ds0) ∧
          f.1 = row.station_name_unique ++ ".nc" ∧
          "waterlevel" ∈ data_var_names f.2 ∧
          (∃ wl, getVar f.2 "waterlevel" = some wl ∧
            lookupS wl.attrs "units" = some "m") ∧
          "time" ∈ f.2.vars.map (fun v => v.name) ∧ "time" ∈ f.2.dims ∧
          (∀ c ∈ hydro_coords, c ∈ f.2.coords) ∧
          getVar f.2 "station_name" =
            some ⟨"station_name", [], .scalar (.s row.station_name)⟩ ∧
          getVar f.2 "station_id" =
            some ⟨"station_id", [], .scalar (.s row.station_id)⟩ ∧
          getVar f.2 "station_x_coordinate" =
            some ⟨"station_x_coordinate", x_attrs, .scalar (.q row.x)⟩ ∧
          getVar f.2 "station_y_coordinate" =
            some ⟨"station_y_coordinate", y_attrs, .scalar (.q row.y)⟩))) :=
  ⟨by with_unfolding_all decide, by with_unfolding_all decide,
    C1_retrieve_outputs wit_providers [wit_rowA, wit_rowB]
      ([wit_rowA, wit_rowB].filterMap (processedFile (wit_providers "ioc")))
      "ioc" (by with_unfolding_all decide) (by with_unfolding_all decide)⟩

end DfmObs
